import Mathlib

/-!
Shallow embedding of the Wi-Fi Stalker reconciliation engine
(`src/tools/wifi_stalker/scheduler.py` of hlvtechnologies/unifi-toolkit)
together with the data model it operates on, and proofs of the spec's
claims about it.

Conventions of the embedding:
* Python `datetime` values are modelled at whole-second granularity by
  `PyDateTime`: a wall-clock reading `wall` plus an optional UTC offset
  `tz` (in seconds); `tz = none` is a naive datetime.  Subtraction of two
  timezone-aware datetimes yields the difference of their instants, as in
  Python.  `datetime.now(timezone.utc)` at model time `now` is `⟨now, some 0⟩`.
* SQLAlchemy rows become Lean structures; the ORM session becomes explicit
  state: the list of `ConnectionHistory` rows (`session.add` appends,
  in-place mutation of a selected row becomes a positional replace), the
  device record, and the list of emitted notification events.
* `SELECT ... ORDER BY col DESC` followed by `.first()` becomes "the first
  list element attaining the maximal key" (`findMaxBy`); on ties the
  database order is unspecified, the model picks the earliest row.
* Python truthiness of optional strings (`if sw_mac:` etc.) is modelled by
  `truthy`: `None` and the empty string are falsy.
* Every `datetime.now(timezone.utc)` call within one cycle is modelled as
  the same instant `now`, a parameter of the cycle.
* The UniFi controller lookups `get_ap_name_by_mac` / `get_switch_name_by_mac`
  are pure name-lookup functions `String → String` passed as parameters
  (the source versions always return a string, falling back to the MAC).
* The per-client descriptor field `signal` models the resolved value of the
  source's `client.get('signal') or client.get('rssi')` fallback chain.
* The columns of `TrackedDevice` / `ConnectionHistory` include the wired
  and presence fields (`is_wired`, `current_switch_*`, `switch_*`) that the
  scheduler reads and writes; `HourlyPresence` carries exactly the fields
  the scheduler's aggregation job uses.
-/

/-- A Python `datetime` at whole-second granularity: wall-clock seconds plus
an optional UTC offset in seconds (`none` = naive datetime). -/
structure PyDateTime where
  wall : Int
  tz : Option Int
deriving DecidableEq, Repr

namespace PyDateTime

/-- `d.replace(tzinfo=timezone.utc)` when `d` is naive, identity otherwise:
the normalization applied by the scheduler before subtracting datetimes. -/
def toAware (d : PyDateTime) : PyDateTime :=
  match d.tz with
  | none => { d with tz := some 0 }
  | some _ => d

/-- The instant a datetime denotes, in UTC seconds; a naive datetime is read
as UTC (which is what attaching `timezone.utc` via `replace` does). -/
def instant (d : PyDateTime) : Int :=
  d.wall - (d.tz.getD 0)

/-- `datetime.now(timezone.utc)` at model time `now`. -/
def utcNow (now : Int) : PyDateTime := ⟨now, some 0⟩

end PyDateTime

/-- One entry of the `active_clients` snapshot dictionary: the attachment
descriptor the UniFi controller reports for a device (after the
dict/object field extraction at scheduler.py lines 236-253). -/
structure Client where
  ap_mac : Option String
  ip : Option String
  signal : Option Int
  is_wired : Bool
  sw_mac : Option String
  sw_port : Option Int
  essid : Option String
  radio : Option String
deriving DecidableEq, Repr

/-- A `stalker_tracked_devices` row, with the wired-tracking columns the
scheduler reads and writes (`is_wired`, `current_switch_*`, `current_ssid`,
`current_radio`) alongside those declared in
`src/tools/wifi_stalker/database.py`. -/
structure TrackedDevice where
  id : Nat
  mac_address : String
  friendly_name : Option String
  site_id : String
  added_at : PyDateTime
  last_seen : Option PyDateTime
  current_ap_mac : Option String
  current_ap_name : Option String
  current_ip_address : Option String
  current_signal_strength : Option Int
  current_ssid : Option String
  current_radio : Option String
  is_connected : Bool
  is_blocked : Bool
  is_wired : Bool
  current_switch_mac : Option String
  current_switch_name : Option String
  current_switch_port : Option Int
deriving DecidableEq, Repr

/-- A `stalker_connection_history` row (one connection interval). -/
structure ConnectionHistory where
  device_id : Nat
  ap_mac : Option String
  ap_name : Option String
  ssid : Option String
  connected_at : PyDateTime
  disconnected_at : Option PyDateTime
  duration_seconds : Option Int
  signal_strength : Option Int
  is_wired : Bool
  switch_mac : Option String
  switch_name : Option String
  switch_port : Option Int
deriving DecidableEq, Repr

/-- A notification event dispatched through `trigger_webhooks`. -/
inductive Event where
  | connected (offline_duration : Option Int)
  | disconnected
  | roamed
  | blocked
  | unblocked
deriving DecidableEq, Repr

/-- The outcome of processing one device: the mutated device row, the
mutated history table, and the notifications emitted, in order. -/
structure ProcResult where
  device : TrackedDevice
  history : List ConnectionHistory
  events : List Event
deriving DecidableEq, Repr

/-- Python `str.lower()` restricted to the ASCII alphabet (characterwise
`Char.toLower` over the string's characters), as applied to MAC addresses
at scheduler.py line 220. -/
def lowerStr (s : String) : String := ⟨s.data.map Char.toLower⟩

/-- Python truthiness of an optional string: `None` and `""` are falsy. -/
def truthy : Option String → Bool
  | none => false
  | some s => !(s == "")

/-- Replace the first element satisfying `p` by its image under `f`
(models an in-place UPDATE of the single row returned by a query). -/
def replaceFirst (p : α → Bool) (f : α → α) : List α → List α
  | [] => []
  | x :: xs => if p x then f x :: xs else x :: replaceFirst p f xs

/-- First element attaining the maximal key under `f`: the model of
`ORDER BY key DESC` + `.first()` (ties resolved to the earliest row). -/
def findMaxBy (f : α → Int) : List α → Option α
  | [] => none
  | x :: xs =>
    match findMaxBy f xs with
    | none => some x
    | some y => if f y > f x then some y else some x

/-- The filter of the open-interval query of `close_connection_history`:
rows of this device with `disconnected_at IS NULL`. -/
def isOpenFor (did : Nat) (e : ConnectionHistory) : Bool :=
  e.device_id == did && e.disconnected_at.isNone

/-- Number of open history rows of a device. -/
def openCount (did : Nat) (h : List ConnectionHistory) : Nat :=
  (h.filter (isOpenFor did)).length

/-- Close one history row at time `now`: set `disconnected_at` and compute
`duration_seconds`, normalizing naive datetimes to UTC first
(scheduler.py lines 459-477). -/
def closeEntry (now : Int) (e : ConnectionHistory) : ConnectionHistory :=
  let disconnected_at : PyDateTime := PyDateTime.utcNow now
  let c := e.connected_at.toAware
  let d := disconnected_at.toAware
  { e with disconnected_at := some disconnected_at,
           duration_seconds := some (d.instant - c.instant) }

/-- `close_connection_history`: find the most recent open history row of the
device (`ORDER BY connected_at DESC`, `.first()`) and close it; no-op when
no open row exists (scheduler.py lines 442-482). -/
def close_connection_history (now : Int) (did : Nat)
    (h : List ConnectionHistory) : List ConnectionHistory :=
  match findMaxBy (fun e => e.connected_at.wall) (h.filter (isOpenFor did)) with
  | none => h
  | some best =>
      replaceFirst
        (fun e => isOpenFor did e && e.connected_at.wall == best.connected_at.wall)
        (closeEntry now) h

/-- The closed-interval query of the connect branch: rows of this device with
`disconnected_at IS NOT NULL`, `ORDER BY disconnected_at DESC`, `.first()`
(scheduler.py lines 355-361). -/
def lastClosed (did : Nat) (h : List ConnectionHistory) : Option ConnectionHistory :=
  findMaxBy (fun e => (e.disconnected_at.getD ⟨0, none⟩).wall)
    (h.filter (fun e => e.device_id == did && e.disconnected_at.isSome))

/-- The `offline_duration` computed in the connect branch: seconds between
`now` and the most recently closed interval's `disconnected_at` (normalized
to UTC when naive), `none` when the device has no closed interval
(scheduler.py lines 353-369). -/
def offlineDuration (now : Int) (did : Nat) (h : List ConnectionHistory) : Option Int :=
  match lastClosed did h with
  | none => none
  | some e =>
      some ((PyDateTime.utcNow now).instant -
        ((e.disconnected_at.getD ⟨0, none⟩).toAware).instant)

/-- The new history row created for a wired device move
(scheduler.py lines 285-292). -/
def newWiredHistory (now : Int) (did : Nat) (swMac switchName : String)
    (swPort : Option Int) : ConnectionHistory :=
  { device_id := did, ap_mac := none, ap_name := none, ssid := none,
    connected_at := PyDateTime.utcNow now, disconnected_at := none,
    duration_seconds := none, signal_strength := none, is_wired := true,
    switch_mac := some swMac, switch_name := some switchName, switch_port := swPort }

/-- The new history row created when a wireless device connects or roams
(scheduler.py lines 334-342 and 386-394). -/
def newWirelessHistory (now : Int) (did : Nat) (apMac apName : String)
    (essid : Option String) (signal : Option Int) : ConnectionHistory :=
  { device_id := did, ap_mac := some apMac, ap_name := some apName, ssid := essid,
    connected_at := PyDateTime.utcNow now, disconnected_at := none,
    duration_seconds := none, signal_strength := signal, is_wired := false,
    switch_mac := none, switch_name := none, switch_port := none }

/-- The wired half of the online branch of `process_device`
(scheduler.py lines 261-308); `device` already carries the telemetry
updates applied before the branch. -/
def wiredBranch (now : Int) (swName : String → String) (device : TrackedDevice)
    (history : List ConnectionHistory) (c : Client) : ProcResult :=
  if truthy c.sw_mac then
    let swMac := c.sw_mac.getD ""
    let switch_name := swName swMac
    if device.current_switch_mac ≠ some swMac ∨ device.current_switch_port ≠ c.sw_port then
      let history1 :=
        if device.is_connected = true ∧ truthy device.current_switch_mac = true then
          close_connection_history now device.id history
        else history
      let history2 := history1 ++ [newWiredHistory now device.id swMac switch_name c.sw_port]
      let device' := { device with
        current_switch_mac := some swMac, current_switch_name := some switch_name,
        current_switch_port := c.sw_port,
        current_ap_mac := none, current_ap_name := none }
      ⟨device', history2, [Event.roamed]⟩
    else ⟨device, history, []⟩
  else ⟨device, history, []⟩

/-- The wireless half of the online branch of `process_device`
(scheduler.py lines 310-405); `device` already carries the telemetry
updates applied before the branch. -/
def wirelessBranch (now : Int) (apName : String → String) (device : TrackedDevice)
    (history : List ConnectionHistory) (c : Client) : ProcResult :=
  if truthy c.ap_mac then
    let apMac := c.ap_mac.getD ""
    let ap_name := apName apMac
    if device.is_connected = false then
      let history2 := history ++
        [newWirelessHistory now device.id apMac ap_name c.essid c.signal]
      let device' := { device with
        current_ap_mac := some apMac, current_ap_name := some ap_name,
        is_connected := true }
      let off := offlineDuration now device.id history2
      ⟨device', history2, [Event.connected off]⟩
    else if device.current_ap_mac ≠ some apMac then
      let history1 :=
        if truthy device.current_ap_mac then
          close_connection_history now device.id history
        else history
      let history2 := history1 ++
        [newWirelessHistory now device.id apMac ap_name c.essid c.signal]
      let device' := { device with
        current_ap_mac := some apMac, current_ap_name := some ap_name }
      ⟨device', history2, [Event.roamed]⟩
    else ⟨device, history, []⟩
  else ⟨device, history, []⟩

/-- The connectivity transition of `process_device`
(scheduler.py lines 226-425): everything except the final blocked-status
check. -/
def connectivityStep (now : Int) (apName swName : String → String)
    (device : TrackedDevice) (client : Option Client)
    (history : List ConnectionHistory) : ProcResult :=
  match client with
  | some c =>
    let device1 := { device with
      last_seen := some (PyDateTime.utcNow now),
      current_ip_address := c.ip, is_wired := c.is_wired }
    let r :=
      if c.is_wired then
        wiredBranch now swName
          { device1 with current_signal_strength := none,
                         current_ssid := none, current_radio := none }
          history c
      else
        wirelessBranch now apName
          { device1 with current_signal_strength := c.signal,
                         current_ssid := c.essid, current_radio := c.radio,
                         current_switch_mac := none, current_switch_name := none,
                         current_switch_port := none }
          history c
    ⟨{ r.device with is_connected := true }, r.history, r.events⟩
  | none =>
    if device.is_connected then
      ⟨{ device with is_connected := false },
        close_connection_history now device.id history,
        [Event.disconnected]⟩
    else ⟨device, history, []⟩

/-- The blocked-status check run for every device at the end of
`process_device` (scheduler.py lines 427-439); `blocked = none` models a
raised lookup (caught and skipped). -/
def blockedStep (blocked : Option Bool) (r : ProcResult) : ProcResult :=
  match blocked with
  | none => r
  | some b =>
    if r.device.is_blocked ≠ b then
      ⟨{ r.device with is_blocked := b }, r.history,
        r.events ++ [if b then Event.blocked else Event.unblocked]⟩
    else r

/-- `process_device` (scheduler.py lines 204-439): the per-device
reconciliation step; `client` is `active_clients.get(mac)` and `blocked`
the result of the live `is_client_blocked` query. -/
def process_device (now : Int) (apName swName : String → String)
    (device : TrackedDevice) (client : Option Client)
    (history : List ConnectionHistory) (blocked : Option Bool) : ProcResult :=
  blockedStep blocked (connectivityStep now apName swName device client history)

/-- The outcome of one full reconciliation cycle over the tracked-device
table: updated device rows (in table order), updated history table, and the
notifications emitted, tagged with the emitting device's id. -/
structure CycleResult where
  devices : List TrackedDevice
  history : List ConnectionHistory
  events : List (Nat × Event)
deriving DecidableEq, Repr

/-- The per-device loop of `refresh_tracked_devices`
(scheduler.py lines 92-99): process each tracked device in table order
against the snapshot `clients` and the live blocked-status query `blockedQ`,
threading the history table through; lookups are keyed by the device's
lower-cased MAC (scheduler.py line 220). -/
def runCycle (now : Int) (apName swName : String → String)
    (clients : String → Option Client) (blockedQ : String → Option Bool) :
    List TrackedDevice → List ConnectionHistory → CycleResult
  | [], h => ⟨[], h, []⟩
  | d :: ds, h =>
    let mac := lowerStr d.mac_address
    let r := process_device now apName swName d (clients mac) h (blockedQ mac)
    let rest := runCycle now apName swName clients blockedQ ds r.history
    ⟨r.device :: rest.devices, rest.history,
      r.events.map (fun e => (d.id, e)) ++ rest.events⟩

/-- `refresh_single_device` (scheduler.py lines 485-534): look the device up
by id and run the same `process_device` step against a fresh snapshot;
`none` when the id is unknown. -/
def refresh_single_device (now : Int) (apName swName : String → String)
    (clients : String → Option Client) (blockedQ : String → Option Bool)
    (device_id : Nat) (devices : List TrackedDevice)
    (history : List ConnectionHistory) :
    Option (TrackedDevice × List ConnectionHistory × List (Nat × Event)) :=
  match devices.find? (fun d => d.id == device_id) with
  | none => none
  | some dev =>
    let mac := lowerStr dev.mac_address
    let r := process_device now apName swName dev (clients mac) history (blockedQ mac)
    some (r.device, r.history, r.events.map (fun e => (dev.id, e)))

/-- Modelled from the spec: the shared provider-session cache of
`shared/unifi_session.py` (not under src/).  `get_shared_client` hands out
the cached provider connection when one exists, otherwise makes one fresh
connection attempt, caching it on success and returning nothing on failure;
`invalidate_shared_client` discards the cached connection.  The pair
`(client?, cachedAfter)` returns the connection handed out (if any) and
whether a connection is cached afterwards. -/
def get_shared_client (cached connectOk : Bool) : Option Unit × Bool :=
  if cached then (some (), true)
  else if connectOk then (some (), true)
  else (none, false)

/-- The snapshot fetch: either the client mapping, or the `get_clients` call
raising. -/
inductive Snapshot where
  | ok (clients : String → Option Client)
  | fetchFailure

/-- The observable outcome of one `refresh_tracked_devices` invocation:
whether a provider connection is still cached, the committed device and
history tables, the notifications emitted, and how many snapshot fetches
were attempted. -/
structure DriverOutcome where
  cachedConn : Bool
  devices : List TrackedDevice
  history : List ConnectionHistory
  events : List (Nat × Event)
  fetchAttempts : Nat

/-- `refresh_tracked_devices` (scheduler.py lines 45-111): obtain the shared
provider client (skipping the cycle when none is available), return early on
an empty device table, fetch the snapshot once, process every device, and
commit; any exception aborts the cycle before the commit and invalidates the
shared client. -/
def refresh_tracked_devices (now : Int) (apName swName : String → String)
    (cached connectOk : Bool) (snap : Snapshot) (blockedQ : String → Option Bool)
    (devices : List TrackedDevice) (history : List ConnectionHistory) :
    DriverOutcome :=
  match get_shared_client cached connectOk with
  | (none, cachedNow) => ⟨cachedNow, devices, history, [], 0⟩
  | (some _, cachedNow) =>
    if devices.isEmpty then ⟨cachedNow, devices, history, [], 0⟩
    else
      match snap with
      | Snapshot.fetchFailure => ⟨false, devices, history, [], 1⟩
      | Snapshot.ok clients =>
        let r := runCycle now apName swName clients blockedQ devices history
        ⟨cachedNow, r.devices, r.history, r.events, 1⟩

/-- A `stalker_hourly_presence` row, with the fields the scheduler's
aggregation job reads and writes. -/
structure HourlyPresence where
  device_id : Nat
  day_of_week : Nat
  hour_of_day : Nat
  total_minutes_connected : Int
  sample_count : Int
  last_updated : PyDateTime
deriving DecidableEq, Repr

/-- The key filter of the presence-bucket query
(scheduler.py lines 621-627). -/
def bucketKey (did dow hour : Nat) (b : HourlyPresence) : Bool :=
  b.device_id == did && b.day_of_week == dow && b.hour_of_day == hour

/-- The per-device body of the aggregation loop (scheduler.py lines
619-645): find the bucket for (device, day, hour) and credit it with 60
minutes and one sample, creating it when absent.  (`scalar_one_or_none`
presumes at most one row per key; the model updates the first.) -/
def updateBucket (now : PyDateTime) (dow hour : Nat) (did : Nat)
    (buckets : List HourlyPresence) : List HourlyPresence :=
  match buckets.find? (bucketKey did dow hour) with
  | some _ =>
      replaceFirst (bucketKey did dow hour)
        (fun b => { b with total_minutes_connected := b.total_minutes_connected + 60,
                           sample_count := b.sample_count + 1,
                           last_updated := now })
        buckets
  | none => buckets ++ [⟨did, dow, hour, 60, 1, now⟩]

/-- `aggregate_hourly_presence` (scheduler.py lines 587-652): for every
tracked device with `is_connected` and not `is_wired`, credit its bucket for
the current day-of-week/hour slot. -/
def aggregate_hourly_presence (now : PyDateTime) (dow hour : Nat)
    (devices : List TrackedDevice) (buckets : List HourlyPresence) :
    List HourlyPresence :=
  (devices.filter (fun d => d.is_connected && !d.is_wired)).foldl
    (fun bs d => updateBucket now dow hour d.id bs) buckets

/-- A disconnected tracked device with no telemetry, as created by the
devices router: handy base value for concrete instances. -/
def baseDevice (i : Nat) (mac : String) : TrackedDevice :=
  { id := i, mac_address := mac, friendly_name := none, site_id := "default",
    added_at := ⟨0, some 0⟩, last_seen := none,
    current_ap_mac := none, current_ap_name := none, current_ip_address := none,
    current_signal_strength := none, current_ssid := none, current_radio := none,
    is_connected := false, is_blocked := false, is_wired := false,
    current_switch_mac := none, current_switch_name := none,
    current_switch_port := none }

/-- A wireless attachment descriptor with only an AP identity: handy base
value for concrete instances. -/
def baseWirelessClient (apMac : String) : Client :=
  { ap_mac := some apMac, ip := none, signal := none, is_wired := false,
    sw_mac := none, sw_port := none, essid := none, radio := none }

/-- A wired attachment descriptor: handy base value for concrete
instances. -/
def baseWiredClient (swMac : String) (swPort : Option Int) : Client :=
  { ap_mac := none, ip := none, signal := none, is_wired := true,
    sw_mac := some swMac, sw_port := swPort, essid := none, radio := none }

/-- The history rows belonging to one device. -/
def ownRows (did : Nat) (h : List ConnectionHistory) : List ConnectionHistory :=
  h.filter (fun e => e.device_id == did)

theorem filter_and_eq (l : List α) (p q : α → Bool) :
    l.filter (fun e => p e && q e) = (l.filter p).filter q := by
  rw [List.filter_filter]
  exact List.filter_congr fun x _ => by cases p x <;> cases q x <;> rfl

/-- The `scalar_one_or_none` bucket lookup of the aggregation loop: the
first bucket matching the (device, day, hour) key. -/
def getBucket (did dow hour : Nat) (bs : List HourlyPresence) : Option HourlyPresence :=
  bs.find? (bucketKey did dow hour)

/-- The device record as prepared for the wired branch: the telemetry
updates of scheduler.py lines 232-265 applied. -/
def wiredPrep (now : Int) (d : TrackedDevice) (c : Client) : TrackedDevice :=
  { d with last_seen := some (PyDateTime.utcNow now), current_ip_address := c.ip,
           is_wired := c.is_wired, current_signal_strength := none,
           current_ssid := none, current_radio := none }

/-- The device record as prepared for the wireless branch: the telemetry
updates of scheduler.py lines 232-259 and 312-319 applied. -/
def wirelessPrep (now : Int) (d : TrackedDevice) (c : Client) : TrackedDevice :=
  { d with last_seen := some (PyDateTime.utcNow now), current_ip_address := c.ip,
           is_wired := c.is_wired, current_signal_strength := c.signal,
           current_ssid := c.essid, current_radio := c.radio,
           current_switch_mac := none, current_switch_name := none,
           current_switch_port := none }

/-- Consistency of a stored device row with its history rows: at most one
open interval; none when disconnected; a connected device either has its
current location identity recorded (a truthy switch MAC when wired, a
truthy AP MAC when wireless) or no open interval at all. -/
def Consistent (d : TrackedDevice) (h : List ConnectionHistory) : Prop :=
  openCount d.id h ≤ 1 ∧
  (d.is_connected = false → openCount d.id h = 0) ∧
  (d.is_connected = true → d.is_wired = true →
    truthy d.current_switch_mac = true ∨ openCount d.id h = 0) ∧
  (d.is_connected = true → d.is_wired = false →
    truthy d.current_ap_mac = true ∨ openCount d.id h = 0)

instance (d : TrackedDevice) (h : List ConnectionHistory) :
    Decidable (Consistent d h) := by
  unfold Consistent
  infer_instance

/-- The device keeps its medium between the stored state and the snapshot
while it is connected (a wired device is not reported wireless and vice
versa). -/
def NoFlip (d : TrackedDevice) (client : Option Client) : Prop :=
  ∀ c, client = some c → d.is_connected = true → c.is_wired = d.is_wired

instance (d : TrackedDevice) (client : Option Client) : Decidable (NoFlip d client) := by
  unfold NoFlip
  cases client with
  | none => exact isTrue (fun c hc => by cases hc)
  | some c =>
    by_cases h : d.is_connected = true → c.is_wired = d.is_wired
    · exact isTrue (fun x hx => by cases hx; exact h)
    · exact isFalse (fun hall => h (hall c rfl))

@[simp] theorem PyDateTime.instant_toAware (d : PyDateTime) :
    d.toAware.instant = d.instant := by
  cases d with
  | mk wall tz => cases tz <;> simp [PyDateTime.toAware, PyDateTime.instant]

@[simp] theorem PyDateTime.instant_utcNow (now : Int) :
    (PyDateTime.utcNow now).instant = now := by
  simp [PyDateTime.utcNow, PyDateTime.instant]

theorem and_eq_true_split {a b : Bool} (h : (a && b) = true) :
    a = true ∧ b = true := by
  cases a with
  | false => simp at h
  | true =>
    cases b with
    | false => simp at h
    | true => exact ⟨rfl, rfl⟩

theorem replaceFirst_of_forall_not (p : α → Bool) (f : α → α) (l : List α)
    (h : ∀ e ∈ l, p e = false) : replaceFirst p f l = l := by
  induction l with
  | nil => rfl
  | cons x xs ih =>
    have hx := h x (List.mem_cons_self x xs)
    simp only [replaceFirst, hx, Bool.false_eq_true, if_false, List.cons.injEq, true_and]
    exact ih fun e he => h e (List.mem_cons_of_mem _ he)

theorem filter_replaceFirst_pos (p q : α → Bool) (f : α → α) (l : List α)
    (hpq : ∀ e, p e = true → q e = true) (hf : ∀ e, q (f e) = q e) :
    (replaceFirst p f l).filter q = replaceFirst p f (l.filter q) := by
  induction l with
  | nil => rfl
  | cons x xs ih =>
    cases hx : p x with
    | true =>
      have hqx : q x = true := hpq x hx
      have hqfx : q (f x) = true := (hf x).trans hqx
      simp [replaceFirst, List.filter_cons, hx, hqx, hqfx]
    | false =>
      cases hqx : q x with
      | true => simp [replaceFirst, List.filter_cons, hx, hqx, ih]
      | false => simp [replaceFirst, List.filter_cons, hx, hqx, ih]

theorem filter_replaceFirst_neg (p q : α → Bool) (f : α → α) (l : List α)
    (hpq : ∀ e, p e = true → q e = false)
    (hf : ∀ e, p e = true → q (f e) = false) :
    (replaceFirst p f l).filter q = l.filter q := by
  induction l with
  | nil => rfl
  | cons x xs ih =>
    cases hx : p x with
    | true => simp [replaceFirst, List.filter_cons, hx, hpq x hx, hf x hx]
    | false =>
      cases hqx : q x with
      | true => simp [replaceFirst, List.filter_cons, hx, hqx, ih]
      | false => simp [replaceFirst, List.filter_cons, hx, hqx, ih]

theorem length_filter_replaceFirst_mem (p q : α → Bool) (f : α → α) (l : List α)
    (hex : ∃ e ∈ l, p e = true)
    (hpq : ∀ e, p e = true → q e = true)
    (hf : ∀ e, p e = true → q (f e) = false) :
    ((replaceFirst p f l).filter q).length + 1 = (l.filter q).length := by
  induction l with
  | nil => obtain ⟨e, he, _⟩ := hex; cases he
  | cons x xs ih =>
    cases hx : p x with
    | true => simp [replaceFirst, List.filter_cons, hx, hpq x hx, hf x hx]
    | false =>
      obtain ⟨e, he, hpe⟩ := hex
      have hexs : ∃ e ∈ xs, p e = true := by
        rcases List.mem_cons.1 he with rfl | hmem
        · rw [hx] at hpe; cases hpe
        · exact ⟨e, hmem, hpe⟩
      cases hqx : q x with
      | true =>
        simp only [replaceFirst, hx, Bool.false_eq_true, if_false,
          List.filter_cons, hqx, if_true, List.length_cons]
        rw [← ih hexs]
      | false =>
        simp only [replaceFirst, hx, Bool.false_eq_true, if_false,
          List.filter_cons, hqx, Bool.false_eq_true, if_false]
        exact ih hexs

theorem findMaxBy_cons_none (f : α → Int) (x : α) (xs : List α)
    (hm : findMaxBy f xs = none) : findMaxBy f (x :: xs) = some x := by
  unfold findMaxBy
  rw [hm]

theorem findMaxBy_cons_some (f : α → Int) (x y : α) (xs : List α)
    (hm : findMaxBy f xs = some y) :
    findMaxBy f (x :: xs) = if f y > f x then some y else some x := by
  unfold findMaxBy
  rw [hm]

theorem eq_nil_of_findMaxBy_eq_none (f : α → Int) (l : List α)
    (h : findMaxBy f l = none) : l = [] := by
  cases l with
  | nil => rfl
  | cons x xs =>
    exfalso
    cases hm : findMaxBy f xs with
    | none =>
      rw [findMaxBy_cons_none f x xs hm] at h
      exact Option.noConfusion h
    | some y =>
      rw [findMaxBy_cons_some f x y xs hm] at h
      by_cases hc : f y > f x
      · rw [if_pos hc] at h; exact Option.noConfusion h
      · rw [if_neg hc] at h; exact Option.noConfusion h

theorem findMaxBy_mem (f : α → Int) (l : List α) (y : α)
    (h : findMaxBy f l = some y) : y ∈ l := by
  induction l generalizing y with
  | nil => exact Option.noConfusion h
  | cons x xs ih =>
    cases hm : findMaxBy f xs with
    | none =>
      rw [findMaxBy_cons_none f x xs hm] at h
      have := Option.some.inj h
      subst this
      exact List.mem_cons_self x xs
    | some z =>
      rw [findMaxBy_cons_some f x z xs hm] at h
      by_cases hc : f z > f x
      · rw [if_pos hc] at h
        have : z = y := Option.some.inj h
        subst this
        exact List.mem_cons_of_mem x (ih z hm)
      · rw [if_neg hc] at h
        have := Option.some.inj h
        subst this
        exact List.mem_cons_self x xs

theorem closeEntry_device_id (now : Int) (e : ConnectionHistory) :
    (closeEntry now e).device_id = e.device_id := rfl

theorem isOpenFor_closeEntry (did : Nat) (now : Int) (e : ConnectionHistory) :
    isOpenFor did (closeEntry now e) = false := by
  simp [isOpenFor, closeEntry]

/-- The open rows of a device are the `disconnected_at IS NULL` rows among
its own rows. -/
theorem filter_isOpenFor_eq (did : Nat) (h : List ConnectionHistory) :
    h.filter (isOpenFor did)
      = (ownRows did h).filter (fun e => e.disconnected_at.isNone) := by
  unfold ownRows
  rw [← filter_and_eq]
  exact List.filter_congr fun e _ => rfl

/-- Unfolding equation of `close_connection_history` when no open row
exists. -/
theorem close_eq_of_none (now : Int) (did : Nat) (h : List ConnectionHistory)
    (hm : findMaxBy (fun e => e.connected_at.wall) (h.filter (isOpenFor did)) = none) :
    close_connection_history now did h = h := by
  unfold close_connection_history
  rw [hm]

/-- Unfolding equation of `close_connection_history` when an open row is
selected. -/
theorem close_eq_of_some (now : Int) (did : Nat) (h : List ConnectionHistory)
    (best : ConnectionHistory)
    (hm : findMaxBy (fun e => e.connected_at.wall) (h.filter (isOpenFor did)) = some best) :
    close_connection_history now did h
      = replaceFirst
          (fun e => isOpenFor did e && (e.connected_at.wall == best.connected_at.wall))
          (closeEntry now) h := by
  unfold close_connection_history
  rw [hm]

theorem openCount_close (now : Int) (did : Nat) (h : List ConnectionHistory) :
    openCount did (close_connection_history now did h) = openCount did h - 1 := by
  cases hm : findMaxBy (fun e => e.connected_at.wall) (h.filter (isOpenFor did)) with
  | none =>
    have h0 : h.filter (isOpenFor did) = [] := by
      have := eq_nil_of_findMaxBy_eq_none _ _ hm
      exact this
    rw [close_eq_of_none now did h hm]
    unfold openCount
    rw [h0]
    rfl
  | some best =>
    have hbm : best ∈ h.filter (isOpenFor did) := findMaxBy_mem _ _ _ hm
    have hbop : isOpenFor did best = true := (List.mem_filter.1 hbm).2
    have hex : ∃ e ∈ h,
        (isOpenFor did e && (e.connected_at.wall == best.connected_at.wall)) = true :=
      ⟨best, (List.mem_filter.1 hbm).1, by simp [hbop]⟩
    have hlen := length_filter_replaceFirst_mem
      (fun e => isOpenFor did e && (e.connected_at.wall == best.connected_at.wall))
      (isOpenFor did) (closeEntry now) h hex
      (fun e he => (and_eq_true_split he).1)
      (fun e _ => isOpenFor_closeEntry did now e)
    rw [close_eq_of_some now did h best hm]
    unfold openCount
    omega

theorem close_of_openCount_zero (now : Int) (did : Nat)
    (h : List ConnectionHistory) (h0 : openCount did h = 0) :
    close_connection_history now did h = h := by
  have hnil : h.filter (isOpenFor did) = [] := List.length_eq_zero.1 h0
  apply close_eq_of_none
  rw [hnil]
  rfl

theorem ownRows_close_ne (now : Int) (did did' : Nat) (h : List ConnectionHistory)
    (hne : did' ≠ did) :
    ownRows did' (close_connection_history now did h) = ownRows did' h := by
  cases hm : findMaxBy (fun e => e.connected_at.wall) (h.filter (isOpenFor did)) with
  | none => rw [close_eq_of_none now did h hm]
  | some best =>
    rw [close_eq_of_some now did h best hm]
    unfold ownRows
    apply filter_replaceFirst_neg
    · intro e he
      have hop : isOpenFor did e = true := (and_eq_true_split he).1
      have hid : e.device_id = did := by
        simpa using (and_eq_true_split hop).1
      simp [hid, Ne.symm hne]
    · intro e he
      have hop : isOpenFor did e = true := (and_eq_true_split he).1
      have hid : e.device_id = did := by
        simpa using (and_eq_true_split hop).1
      simp [closeEntry, hid, Ne.symm hne]

theorem ownRows_close_own (now : Int) (did : Nat) (h : List ConnectionHistory) :
    ownRows did (close_connection_history now did h)
      = close_connection_history now did (ownRows did h) := by
  have hsel : (ownRows did h).filter (isOpenFor did) = h.filter (isOpenFor did) := by
    unfold ownRows
    rw [← filter_and_eq]
    exact List.filter_congr fun e _ => by
      cases hb : (e.device_id == did) <;> simp [isOpenFor, hb]
  cases hm : findMaxBy (fun e => e.connected_at.wall) (h.filter (isOpenFor did)) with
  | none =>
    rw [close_eq_of_none now did h hm,
        close_eq_of_none now did (ownRows did h) (by rw [hsel]; exact hm)]
  | some best =>
    rw [close_eq_of_some now did h best hm,
        close_eq_of_some now did (ownRows did h) best (by rw [hsel]; exact hm)]
    unfold ownRows
    apply filter_replaceFirst_pos
    · intro e he
      exact (and_eq_true_split (and_eq_true_split he).1).1
    · intro e
      rfl

theorem ownRows_append_own (did : Nat) (h : List ConnectionHistory)
    (e : ConnectionHistory) (he : e.device_id = did) :
    ownRows did (h ++ [e]) = ownRows did h ++ [e] := by
  unfold ownRows
  rw [List.filter_append]
  simp [he]

theorem ownRows_append_ne (did : Nat) (h : List ConnectionHistory)
    (e : ConnectionHistory) (he : e.device_id ≠ did) :
    ownRows did (h ++ [e]) = ownRows did h := by
  unfold ownRows
  rw [List.filter_append]
  simp [he]

theorem lastClosed_eq_own (did : Nat) (h : List ConnectionHistory) :
    lastClosed did h
      = findMaxBy (fun e => (e.disconnected_at.getD ⟨0, none⟩).wall)
          ((ownRows did h).filter (fun e => e.disconnected_at.isSome)) := by
  unfold lastClosed ownRows
  rw [← filter_and_eq]

theorem lastClosed_congr (did : Nat) (h₁ h₂ : List ConnectionHistory)
    (hfe : ownRows did h₁ = ownRows did h₂) :
    lastClosed did h₁ = lastClosed did h₂ := by
  rw [lastClosed_eq_own, lastClosed_eq_own, hfe]

theorem offlineDuration_congr (now : Int) (did : Nat) (h₁ h₂ : List ConnectionHistory)
    (hfe : ownRows did h₁ = ownRows did h₂) :
    offlineDuration now did h₁ = offlineDuration now did h₂ := by
  unfold offlineDuration
  rw [lastClosed_congr did h₁ h₂ hfe]

theorem offlineDuration_append_open (now : Int) (did : Nat)
    (h : List ConnectionHistory) (e : ConnectionHistory)
    (he : e.disconnected_at = none) :
    offlineDuration now did (h ++ [e]) = offlineDuration now did h := by
  unfold offlineDuration lastClosed
  rw [List.filter_append]
  simp [he]

theorem wiredBranch_eq_skip (now : Int) (swName : String → String)
    (d : TrackedDevice) (h : List ConnectionHistory) (c : Client)
    (h1 : truthy c.sw_mac = false) :
    wiredBranch now swName d h c = ⟨d, h, []⟩ := by
  simp only [wiredBranch]
  rw [if_neg (by simp [h1])]

theorem wiredBranch_eq_same (now : Int) (swName : String → String)
    (d : TrackedDevice) (h : List ConnectionHistory) (c : Client)
    (h1 : d.current_switch_mac = some (c.sw_mac.getD ""))
    (h2 : d.current_switch_port = c.sw_port) :
    wiredBranch now swName d h c = ⟨d, h, []⟩ := by
  simp only [wiredBranch]
  by_cases ha : truthy c.sw_mac = true
  · rw [if_pos ha, if_neg (by simp [h1, h2])]
  · rw [if_neg ha]

theorem wiredBranch_eq_roam (now : Int) (swName : String → String)
    (d : TrackedDevice) (h : List ConnectionHistory) (c : Client)
    (h1 : truthy c.sw_mac = true)
    (h2 : d.current_switch_mac ≠ some (c.sw_mac.getD "") ∨
          d.current_switch_port ≠ c.sw_port) :
    wiredBranch now swName d h c =
      ⟨{ d with current_switch_mac := some (c.sw_mac.getD ""),
                current_switch_name := some (swName (c.sw_mac.getD "")),
                current_switch_port := c.sw_port,
                current_ap_mac := none, current_ap_name := none },
        (if d.is_connected = true ∧ truthy d.current_switch_mac = true
          then close_connection_history now d.id h
          else h) ++
          [newWiredHistory now d.id (c.sw_mac.getD "")
            (swName (c.sw_mac.getD "")) c.sw_port],
        [Event.roamed]⟩ := by
  simp only [wiredBranch]
  rw [if_pos h1, if_pos h2]

theorem wirelessBranch_eq_skip (now : Int) (apName : String → String)
    (d : TrackedDevice) (h : List ConnectionHistory) (c : Client)
    (h1 : truthy c.ap_mac = false) :
    wirelessBranch now apName d h c = ⟨d, h, []⟩ := by
  simp only [wirelessBranch]
  rw [if_neg (by simp [h1])]

theorem wirelessBranch_eq_connect (now : Int) (apName : String → String)
    (d : TrackedDevice) (h : List ConnectionHistory) (c : Client)
    (h1 : truthy c.ap_mac = true) (h2 : d.is_connected = false) :
    wirelessBranch now apName d h c =
      ⟨{ d with current_ap_mac := some (c.ap_mac.getD ""),
                current_ap_name := some (apName (c.ap_mac.getD "")),
                is_connected := true },
        h ++ [newWirelessHistory now d.id (c.ap_mac.getD "")
          (apName (c.ap_mac.getD "")) c.essid c.signal],
        [Event.connected (offlineDuration now d.id
          (h ++ [newWirelessHistory now d.id (c.ap_mac.getD "")
            (apName (c.ap_mac.getD "")) c.essid c.signal]))]⟩ := by
  simp only [wirelessBranch]
  rw [if_pos h1, if_pos h2]

theorem wirelessBranch_eq_roam (now : Int) (apName : String → String)
    (d : TrackedDevice) (h : List ConnectionHistory) (c : Client)
    (h1 : truthy c.ap_mac = true) (h2 : d.is_connected = true)
    (h3 : d.current_ap_mac ≠ some (c.ap_mac.getD "")) :
    wirelessBranch now apName d h c =
      ⟨{ d with current_ap_mac := some (c.ap_mac.getD ""),
                current_ap_name := some (apName (c.ap_mac.getD "")) },
        (if truthy d.current_ap_mac
          then close_connection_history now d.id h
          else h) ++
          [newWirelessHistory now d.id (c.ap_mac.getD "")
            (apName (c.ap_mac.getD "")) c.essid c.signal],
        [Event.roamed]⟩ := by
  simp only [wirelessBranch]
  rw [if_pos h1, if_neg (by simp [h2]), if_pos h3]

theorem wirelessBranch_eq_same (now : Int) (apName : String → String)
    (d : TrackedDevice) (h : List ConnectionHistory) (c : Client)
    (h1 : truthy c.ap_mac = true) (h2 : d.is_connected = true)
    (h3 : d.current_ap_mac = some (c.ap_mac.getD "")) :
    wirelessBranch now apName d h c = ⟨d, h, []⟩ := by
  simp only [wirelessBranch]
  rw [if_pos h1, if_neg (by simp [h2]), if_neg (by simp [h3])]

theorem connectivityStep_absent_conn (now : Int) (apName swName : String → String)
    (d : TrackedDevice) (h : List ConnectionHistory)
    (hd : d.is_connected = true) :
    connectivityStep now apName swName d none h =
      ⟨{ d with is_connected := false },
        close_connection_history now d.id h, [Event.disconnected]⟩ := by
  simp only [connectivityStep]
  rw [if_pos hd]

theorem connectivityStep_absent_disc (now : Int) (apName swName : String → String)
    (d : TrackedDevice) (h : List ConnectionHistory)
    (hd : d.is_connected = false) :
    connectivityStep now apName swName d none h = ⟨d, h, []⟩ := by
  simp only [connectivityStep]
  rw [if_neg (by simp [hd])]

theorem connectivityStep_present_wired (now : Int) (apName swName : String → String)
    (d : TrackedDevice) (h : List ConnectionHistory) (c : Client)
    (hc : c.is_wired = true) :
    connectivityStep now apName swName d (some c) h =
      ⟨{ (wiredBranch now swName (wiredPrep now d c) h c).device with
          is_connected := true },
        (wiredBranch now swName (wiredPrep now d c) h c).history,
        (wiredBranch now swName (wiredPrep now d c) h c).events⟩ := by
  simp only [connectivityStep]
  rw [if_pos hc]
  rfl

theorem connectivityStep_present_wireless (now : Int) (apName swName : String → String)
    (d : TrackedDevice) (h : List ConnectionHistory) (c : Client)
    (hc : c.is_wired = false) :
    connectivityStep now apName swName d (some c) h =
      ⟨{ (wirelessBranch now apName (wirelessPrep now d c) h c).device with
          is_connected := true },
        (wirelessBranch now apName (wirelessPrep now d c) h c).history,
        (wirelessBranch now apName (wirelessPrep now d c) h c).events⟩ := by
  simp only [connectivityStep]
  rw [if_neg (by simp [hc])]
  rfl

theorem blockedStep_eq_none (r : ProcResult) : blockedStep none r = r := rfl

theorem blockedStep_eq_same (b : Bool) (r : ProcResult)
    (hb : r.device.is_blocked = b) : blockedStep (some b) r = r := by
  simp only [blockedStep]
  rw [if_neg (by simp [hb])]

theorem blockedStep_eq_flip (b : Bool) (r : ProcResult)
    (hb : r.device.is_blocked ≠ b) :
    blockedStep (some b) r =
      ⟨{ r.device with is_blocked := b }, r.history,
        r.events ++ [if b then Event.blocked else Event.unblocked]⟩ := by
  simp only [blockedStep]
  rw [if_pos hb]

theorem blockedStep_history (blocked : Option Bool) (r : ProcResult) :
    (blockedStep blocked r).history = r.history := by
  cases blocked with
  | none => rfl
  | some b =>
    by_cases hb : r.device.is_blocked = b
    · rw [blockedStep_eq_same b r hb]
    · rw [blockedStep_eq_flip b r hb]

theorem blockedStep_events (blocked : Option Bool) (r : ProcResult) :
    ∃ tail, (blockedStep blocked r).events = r.events ++ tail ∧
      ∀ e ∈ tail, e = Event.blocked ∨ e = Event.unblocked := by
  cases blocked with
  | none => exact ⟨[], by simp [blockedStep_eq_none], by simp⟩
  | some b =>
    by_cases hb : r.device.is_blocked = b
    · exact ⟨[], by simp [blockedStep_eq_same b r hb], by simp⟩
    · refine ⟨[if b then Event.blocked else Event.unblocked],
        by rw [blockedStep_eq_flip b r hb], ?_⟩
      intro e he
      rcases List.mem_singleton.1 he with rfl
      cases b <;> simp

theorem blockedStep_device_id (blocked : Option Bool) (r : ProcResult) :
    (blockedStep blocked r).device.id = r.device.id := by
  cases blocked with
  | none => rfl
  | some b =>
    by_cases hb : r.device.is_blocked = b
    · rw [blockedStep_eq_same b r hb]
    · rw [blockedStep_eq_flip b r hb]

theorem blockedStep_device_mac (blocked : Option Bool) (r : ProcResult) :
    (blockedStep blocked r).device.mac_address = r.device.mac_address := by
  cases blocked with
  | none => rfl
  | some b =>
    by_cases hb : r.device.is_blocked = b
    · rw [blockedStep_eq_same b r hb]
    · rw [blockedStep_eq_flip b r hb]

theorem blockedStep_device_is_connected (blocked : Option Bool) (r : ProcResult) :
    (blockedStep blocked r).device.is_connected = r.device.is_connected := by
  cases blocked with
  | none => rfl
  | some b =>
    by_cases hb : r.device.is_blocked = b
    · rw [blockedStep_eq_same b r hb]
    · rw [blockedStep_eq_flip b r hb]

theorem blockedStep_congr (blocked : Option Bool) (r₁ r₂ : ProcResult)
    (hd : r₁.device = r₂.device) (he : r₁.events = r₂.events) :
    (blockedStep blocked r₁).device = (blockedStep blocked r₂).device ∧
    (blockedStep blocked r₁).events = (blockedStep blocked r₂).events := by
  cases blocked with
  | none => exact ⟨hd, he⟩
  | some b =>
    by_cases hb : r₁.device.is_blocked = b
    · rw [blockedStep_eq_same b r₁ hb, blockedStep_eq_same b r₂ (hd ▸ hb)]
      exact ⟨hd, he⟩
    · rw [blockedStep_eq_flip b r₁ hb, blockedStep_eq_flip b r₂ (hd ▸ hb)]
      exact ⟨by rw [hd], by rw [he]⟩

theorem wiredBranch_device_pres (now : Int) (swName : String → String)
    (d : TrackedDevice) (h : List ConnectionHistory) (c : Client) :
    (wiredBranch now swName d h c).device.id = d.id ∧
    (wiredBranch now swName d h c).device.mac_address = d.mac_address ∧
    (wiredBranch now swName d h c).device.is_connected = d.is_connected ∧
    (wiredBranch now swName d h c).device.is_blocked = d.is_blocked ∧
    (wiredBranch now swName d h c).device.is_wired = d.is_wired := by
  simp only [wiredBranch]
  split_ifs <;> exact ⟨rfl, rfl, rfl, rfl, rfl⟩

theorem wirelessBranch_device_pres (now : Int) (apName : String → String)
    (d : TrackedDevice) (h : List ConnectionHistory) (c : Client) :
    (wirelessBranch now apName d h c).device.id = d.id ∧
    (wirelessBranch now apName d h c).device.mac_address = d.mac_address ∧
    (wirelessBranch now apName d h c).device.is_blocked = d.is_blocked ∧
    (wirelessBranch now apName d h c).device.is_wired = d.is_wired := by
  simp only [wirelessBranch]
  split_ifs <;> exact ⟨rfl, rfl, rfl, rfl⟩

theorem connectivityStep_device_pres (now : Int) (apName swName : String → String)
    (d : TrackedDevice) (client : Option Client) (h : List ConnectionHistory) :
    (connectivityStep now apName swName d client h).device.id = d.id ∧
    (connectivityStep now apName swName d client h).device.mac_address = d.mac_address ∧
    (connectivityStep now apName swName d client h).device.is_blocked = d.is_blocked := by
  cases client with
  | none =>
    by_cases hd : d.is_connected = true
    · rw [connectivityStep_absent_conn now apName swName d h hd]
      exact ⟨rfl, rfl, rfl⟩
    · rw [connectivityStep_absent_disc now apName swName d h (by simpa using hd)]
      exact ⟨rfl, rfl, rfl⟩
  | some c =>
    by_cases hw : c.is_wired = true
    · rw [connectivityStep_present_wired now apName swName d h c hw]
      obtain ⟨hid, hmac, _, hbl, _⟩ :=
        wiredBranch_device_pres now swName (wiredPrep now d c) h c
      exact ⟨hid, hmac, hbl⟩
    · rw [connectivityStep_present_wireless now apName swName d h c
        (by simpa using hw)]
      obtain ⟨hid, hmac, hbl, _⟩ :=
        wirelessBranch_device_pres now apName (wirelessPrep now d c) h c
      exact ⟨hid, hmac, hbl⟩

theorem process_device_id (now : Int) (apName swName : String → String)
    (d : TrackedDevice) (client : Option Client) (h : List ConnectionHistory)
    (blocked : Option Bool) :
    (process_device now apName swName d client h blocked).device.id = d.id := by
  unfold process_device
  rw [blockedStep_device_id]
  exact (connectivityStep_device_pres now apName swName d client h).1

theorem process_device_mac (now : Int) (apName swName : String → String)
    (d : TrackedDevice) (client : Option Client) (h : List ConnectionHistory)
    (blocked : Option Bool) :
    (process_device now apName swName d client h blocked).device.mac_address
      = d.mac_address := by
  unfold process_device
  rw [blockedStep_device_mac]
  exact (connectivityStep_device_pres now apName swName d client h).2.1

theorem wiredBranch_frame (now : Int) (swName : String → String)
    (d : TrackedDevice) (h : List ConnectionHistory) (c : Client) (did : Nat)
    (hne : did ≠ d.id) :
    ownRows did (wiredBranch now swName d h c).history = ownRows did h := by
  by_cases h1 : truthy c.sw_mac = true
  · by_cases h2 : d.current_switch_mac ≠ some (c.sw_mac.getD "") ∨
        d.current_switch_port ≠ c.sw_port
    · rw [wiredBranch_eq_roam now swName d h c h1 h2]
      rw [ownRows_append_ne]
      · by_cases h3 : d.is_connected = true ∧ truthy d.current_switch_mac = true
        · rw [if_pos h3]
          exact ownRows_close_ne now d.id did h hne
        · rw [if_neg h3]
      · show (newWiredHistory now d.id (c.sw_mac.getD "")
          (swName (c.sw_mac.getD "")) c.sw_port).device_id ≠ did
        simpa [newWiredHistory] using Ne.symm hne
    · push_neg at h2
      rw [wiredBranch_eq_same now swName d h c h2.1 h2.2]
  · rw [wiredBranch_eq_skip now swName d h c (by simpa using h1)]

theorem wirelessBranch_frame (now : Int) (apName : String → String)
    (d : TrackedDevice) (h : List ConnectionHistory) (c : Client) (did : Nat)
    (hne : did ≠ d.id) :
    ownRows did (wirelessBranch now apName d h c).history = ownRows did h := by
  by_cases h1 : truthy c.ap_mac = true
  · by_cases h2 : d.is_connected = true
    · by_cases h3 : d.current_ap_mac = some (c.ap_mac.getD "")
      · rw [wirelessBranch_eq_same now apName d h c h1 h2 h3]
      · rw [wirelessBranch_eq_roam now apName d h c h1 h2 h3]
        rw [ownRows_append_ne]
        · by_cases h4 : truthy d.current_ap_mac = true
          · rw [if_pos h4]
            exact ownRows_close_ne now d.id did h hne
          · rw [if_neg (by simpa using h4)]
        · show (newWirelessHistory now d.id (c.ap_mac.getD "")
            (apName (c.ap_mac.getD "")) c.essid c.signal).device_id ≠ did
          simpa [newWirelessHistory] using Ne.symm hne
    · rw [wirelessBranch_eq_connect now apName d h c h1 (by simpa using h2)]
      rw [ownRows_append_ne]
      show (newWirelessHistory now d.id (c.ap_mac.getD "")
        (apName (c.ap_mac.getD "")) c.essid c.signal).device_id ≠ did
      simpa [newWirelessHistory] using Ne.symm hne
  · rw [wirelessBranch_eq_skip now apName d h c (by simpa using h1)]

theorem process_frame (now : Int) (apName swName : String → String)
    (d : TrackedDevice) (client : Option Client) (h : List ConnectionHistory)
    (blocked : Option Bool) (did : Nat) (hne : did ≠ d.id) :
    ownRows did (process_device now apName swName d client h blocked).history
      = ownRows did h := by
  unfold process_device
  rw [blockedStep_history]
  cases client with
  | none =>
    by_cases hd : d.is_connected = true
    · rw [connectivityStep_absent_conn now apName swName d h hd]
      exact ownRows_close_ne now d.id did h hne
    · rw [connectivityStep_absent_disc now apName swName d h (by simpa using hd)]
  | some c =>
    by_cases hw : c.is_wired = true
    · rw [connectivityStep_present_wired now apName swName d h c hw]
      exact wiredBranch_frame now swName (wiredPrep now d c) h c did hne
    · rw [connectivityStep_present_wireless now apName swName d h c (by simpa using hw)]
      exact wirelessBranch_frame now apName (wirelessPrep now d c) h c did hne

theorem wiredBranch_congr (now : Int) (swName : String → String)
    (d : TrackedDevice) (h₁ h₂ : List ConnectionHistory) (c : Client)
    (hfe : ownRows d.id h₁ = ownRows d.id h₂) :
    (wiredBranch now swName d h₁ c).device = (wiredBranch now swName d h₂ c).device ∧
    (wiredBranch now swName d h₁ c).events = (wiredBranch now swName d h₂ c).events ∧
    ownRows d.id (wiredBranch now swName d h₁ c).history
      = ownRows d.id (wiredBranch now swName d h₂ c).history := by
  by_cases h1 : truthy c.sw_mac = true
  · by_cases h2 : d.current_switch_mac ≠ some (c.sw_mac.getD "") ∨
        d.current_switch_port ≠ c.sw_port
    · rw [wiredBranch_eq_roam now swName d h₁ c h1 h2,
          wiredBranch_eq_roam now swName d h₂ c h1 h2]
      refine ⟨rfl, rfl, ?_⟩
      rw [ownRows_append_own d.id _ _ (by simp [newWiredHistory]),
          ownRows_append_own d.id _ _ (by simp [newWiredHistory])]
      by_cases h3 : d.is_connected = true ∧ truthy d.current_switch_mac = true
      · rw [if_pos h3, if_pos h3, ownRows_close_own, ownRows_close_own, hfe]
      · rw [if_neg h3, if_neg h3, hfe]
    · push_neg at h2
      rw [wiredBranch_eq_same now swName d h₁ c h2.1 h2.2,
          wiredBranch_eq_same now swName d h₂ c h2.1 h2.2]
      exact ⟨rfl, rfl, hfe⟩
  · rw [wiredBranch_eq_skip now swName d h₁ c (by simpa using h1),
        wiredBranch_eq_skip now swName d h₂ c (by simpa using h1)]
    exact ⟨rfl, rfl, hfe⟩

theorem wirelessBranch_congr (now : Int) (apName : String → String)
    (d : TrackedDevice) (h₁ h₂ : List ConnectionHistory) (c : Client)
    (hfe : ownRows d.id h₁ = ownRows d.id h₂) :
    (wirelessBranch now apName d h₁ c).device
      = (wirelessBranch now apName d h₂ c).device ∧
    (wirelessBranch now apName d h₁ c).events
      = (wirelessBranch now apName d h₂ c).events ∧
    ownRows d.id (wirelessBranch now apName d h₁ c).history
      = ownRows d.id (wirelessBranch now apName d h₂ c).history := by
  by_cases h1 : truthy c.ap_mac = true
  · by_cases h2 : d.is_connected = true
    · by_cases h3 : d.current_ap_mac = some (c.ap_mac.getD "")
      · rw [wirelessBranch_eq_same now apName d h₁ c h1 h2 h3,
            wirelessBranch_eq_same now apName d h₂ c h1 h2 h3]
        exact ⟨rfl, rfl, hfe⟩
      · rw [wirelessBranch_eq_roam now apName d h₁ c h1 h2 h3,
            wirelessBranch_eq_roam now apName d h₂ c h1 h2 h3]
        refine ⟨rfl, rfl, ?_⟩
        rw [ownRows_append_own d.id _ _ (by simp [newWirelessHistory]),
            ownRows_append_own d.id _ _ (by simp [newWirelessHistory])]
        by_cases h4 : truthy d.current_ap_mac = true
        · rw [if_pos h4, if_pos h4, ownRows_close_own, ownRows_close_own, hfe]
        · rw [if_neg (by simpa using h4), if_neg (by simpa using h4), hfe]
    · rw [wirelessBranch_eq_connect now apName d h₁ c h1 (by simpa using h2),
          wirelessBranch_eq_connect now apName d h₂ c h1 (by simpa using h2)]
      have hrows : ownRows d.id (h₁ ++ [newWirelessHistory now d.id (c.ap_mac.getD "")
            (apName (c.ap_mac.getD "")) c.essid c.signal])
          = ownRows d.id (h₂ ++ [newWirelessHistory now d.id (c.ap_mac.getD "")
            (apName (c.ap_mac.getD "")) c.essid c.signal]) := by
        rw [ownRows_append_own d.id _ _ (by simp [newWirelessHistory]),
            ownRows_append_own d.id _ _ (by simp [newWirelessHistory]), hfe]
      refine ⟨rfl, ?_, hrows⟩
      rw [offlineDuration_congr now d.id _ _ hrows]
  · rw [wirelessBranch_eq_skip now apName d h₁ c (by simpa using h1),
        wirelessBranch_eq_skip now apName d h₂ c (by simpa using h1)]
    exact ⟨rfl, rfl, hfe⟩

theorem connectivityStep_congr (now : Int) (apName swName : String → String)
    (d : TrackedDevice) (client : Option Client) (h₁ h₂ : List ConnectionHistory)
    (hfe : ownRows d.id h₁ = ownRows d.id h₂) :
    (connectivityStep now apName swName d client h₁).device
      = (connectivityStep now apName swName d client h₂).device ∧
    (connectivityStep now apName swName d client h₁).events
      = (connectivityStep now apName swName d client h₂).events ∧
    ownRows d.id (connectivityStep now apName swName d client h₁).history
      = ownRows d.id (connectivityStep now apName swName d client h₂).history := by
  cases client with
  | none =>
    by_cases hd : d.is_connected = true
    · rw [connectivityStep_absent_conn now apName swName d h₁ hd,
          connectivityStep_absent_conn now apName swName d h₂ hd]
      refine ⟨rfl, rfl, ?_⟩
      rw [ownRows_close_own, ownRows_close_own, hfe]
    · rw [connectivityStep_absent_disc now apName swName d h₁ (by simpa using hd),
          connectivityStep_absent_disc now apName swName d h₂ (by simpa using hd)]
      exact ⟨rfl, rfl, hfe⟩
  | some c =>
    by_cases hw : c.is_wired = true
    · rw [connectivityStep_present_wired now apName swName d h₁ c hw,
          connectivityStep_present_wired now apName swName d h₂ c hw]
      obtain ⟨hd, he, hh⟩ :=
        wiredBranch_congr now swName (wiredPrep now d c) h₁ h₂ c hfe
      exact ⟨by rw [hd], he, hh⟩
    · rw [connectivityStep_present_wireless now apName swName d h₁ c (by simpa using hw),
          connectivityStep_present_wireless now apName swName d h₂ c (by simpa using hw)]
      obtain ⟨hd, he, hh⟩ :=
        wirelessBranch_congr now apName (wirelessPrep now d c) h₁ h₂ c hfe
      exact ⟨by rw [hd], he, hh⟩

theorem process_congr (now : Int) (apName swName : String → String)
    (d : TrackedDevice) (client : Option Client) (h₁ h₂ : List ConnectionHistory)
    (blocked : Option Bool)
    (hfe : ownRows d.id h₁ = ownRows d.id h₂) :
    (process_device now apName swName d client h₁ blocked).device
      = (process_device now apName swName d client h₂ blocked).device ∧
    (process_device now apName swName d client h₁ blocked).events
      = (process_device now apName swName d client h₂ blocked).events ∧
    ownRows d.id (process_device now apName swName d client h₁ blocked).history
      = ownRows d.id (process_device now apName swName d client h₂ blocked).history := by
  obtain ⟨hd, he, hh⟩ := connectivityStep_congr now apName swName d client h₁ h₂ hfe
  obtain ⟨hbd, hbe⟩ := blockedStep_congr blocked _ _ hd he
  refine ⟨hbd, hbe, ?_⟩
  unfold process_device
  rw [blockedStep_history, blockedStep_history]
  exact hh

theorem blockedStep_is_blocked_eq (b : Bool) (r : ProcResult) :
    (blockedStep (some b) r).device.is_blocked = b := by
  by_cases hb : r.device.is_blocked = b
  · rw [blockedStep_eq_same b r hb]
    exact hb
  · rw [blockedStep_eq_flip b r hb]

theorem blockedStep_noop_after (blocked : Option Bool) (r : ProcResult)
    (hb : ∀ b, blocked = some b → r.device.is_blocked = b) :
    blockedStep blocked r = r := by
  cases blocked with
  | none => rfl
  | some b => exact blockedStep_eq_same b r (hb b rfl)

theorem blockedStep_device_fields (blocked : Option Bool) (r : ProcResult) :
    (blockedStep blocked r).device.is_connected = r.device.is_connected ∧
    (blockedStep blocked r).device.is_wired = r.device.is_wired ∧
    (blockedStep blocked r).device.current_ap_mac = r.device.current_ap_mac ∧
    (blockedStep blocked r).device.current_switch_mac = r.device.current_switch_mac ∧
    (blockedStep blocked r).device.current_switch_port = r.device.current_switch_port := by
  cases blocked with
  | none => exact ⟨rfl, rfl, rfl, rfl, rfl⟩
  | some b =>
    by_cases hb : r.device.is_blocked = b
    · rw [blockedStep_eq_same b r hb]
      exact ⟨rfl, rfl, rfl, rfl, rfl⟩
    · rw [blockedStep_eq_flip b r hb]
      exact ⟨rfl, rfl, rfl, rfl, rfl⟩

theorem wiredBranch_switch_after (now : Int) (swName : String → String)
    (d : TrackedDevice) (h : List ConnectionHistory) (c : Client)
    (h1 : truthy c.sw_mac = true) :
    (wiredBranch now swName d h c).device.current_switch_mac
        = some (c.sw_mac.getD "") ∧
    (wiredBranch now swName d h c).device.current_switch_port = c.sw_port := by
  by_cases h2 : d.current_switch_mac ≠ some (c.sw_mac.getD "") ∨
      d.current_switch_port ≠ c.sw_port
  · rw [wiredBranch_eq_roam now swName d h c h1 h2]
    exact ⟨rfl, rfl⟩
  · push_neg at h2
    rw [wiredBranch_eq_same now swName d h c h2.1 h2.2]
    exact ⟨h2.1, h2.2⟩

theorem wirelessBranch_ap_after (now : Int) (apName : String → String)
    (d : TrackedDevice) (h : List ConnectionHistory) (c : Client)
    (h1 : truthy c.ap_mac = true) :
    (wirelessBranch now apName d h c).device.current_ap_mac
      = some (c.ap_mac.getD "") := by
  by_cases h2 : d.is_connected = true
  · by_cases h3 : d.current_ap_mac = some (c.ap_mac.getD "")
    · rw [wirelessBranch_eq_same now apName d h c h1 h2 h3]
      exact h3
    · rw [wirelessBranch_eq_roam now apName d h c h1 h2 h3]
  · rw [wirelessBranch_eq_connect now apName d h c h1 (by simpa using h2)]

theorem connectivityStep_absent_not_connected (now : Int)
    (apName swName : String → String) (d : TrackedDevice)
    (h : List ConnectionHistory) :
    (connectivityStep now apName swName d none h).device.is_connected = false := by
  by_cases hd : d.is_connected = true
  · rw [connectivityStep_absent_conn now apName swName d h hd]
  · rw [connectivityStep_absent_disc now apName swName d h (by simpa using hd)]
    simpa using hd

theorem connectivityStep_present_connected (now : Int)
    (apName swName : String → String) (d : TrackedDevice)
    (h : List ConnectionHistory) (c : Client) :
    (connectivityStep now apName swName d (some c) h).device.is_connected = true := by
  by_cases hw : c.is_wired = true
  · rw [connectivityStep_present_wired now apName swName d h c hw]
  · rw [connectivityStep_present_wireless now apName swName d h c (by simpa using hw)]

theorem process_stable (now1 now2 : Int) (apName swName : String → String)
    (d : TrackedDevice) (client : Option Client) (h h' : List ConnectionHistory)
    (blocked : Option Bool) :
    (process_device now2 apName swName
        (process_device now1 apName swName d client h blocked).device
        client h' blocked).history = h' ∧
    (process_device now2 apName swName
        (process_device now1 apName swName d client h blocked).device
        client h' blocked).events = [] := by
  set d1 := (process_device now1 apName swName d client h blocked).device with hd1
  have hreb : ∀ b, blocked = some b → d1.is_blocked = b := by
    intro b hb
    rw [hd1]
    unfold process_device
    rw [hb]
    exact blockedStep_is_blocked_eq b _
  have hkey : (connectivityStep now2 apName swName d1 client h').history = h' ∧
      (connectivityStep now2 apName swName d1 client h').events = [] := by
    cases client with
    | none =>
      have hc1 : d1.is_connected = false := by
        rw [hd1]
        unfold process_device
        rw [(blockedStep_device_fields blocked _).1]
        exact connectivityStep_absent_not_connected now1 apName swName d h
      rw [connectivityStep_absent_disc now2 apName swName d1 h' hc1]
      exact ⟨rfl, rfl⟩
    | some c =>
      have hconn : d1.is_connected = true := by
        rw [hd1]
        unfold process_device
        rw [(blockedStep_device_fields blocked _).1]
        exact connectivityStep_present_connected now1 apName swName d h c
      by_cases hw : c.is_wired = true
      · rw [connectivityStep_present_wired now2 apName swName d1 h' c hw]
        by_cases h1 : truthy c.sw_mac = true
        · have hsw : d1.current_switch_mac = some (c.sw_mac.getD "") ∧
              d1.current_switch_port = c.sw_port := by
            rw [hd1]
            unfold process_device
            constructor
            · rw [(blockedStep_device_fields blocked _).2.2.2.1]
              rw [connectivityStep_present_wired now1 apName swName d h c hw]
              exact (wiredBranch_switch_after now1 swName (wiredPrep now1 d c) h c h1).1
            · rw [(blockedStep_device_fields blocked _).2.2.2.2]
              rw [connectivityStep_present_wired now1 apName swName d h c hw]
              exact (wiredBranch_switch_after now1 swName (wiredPrep now1 d c) h c h1).2
          rw [wiredBranch_eq_same now2 swName (wiredPrep now2 d1 c) h' c hsw.1 hsw.2]
          exact ⟨rfl, rfl⟩
        · rw [wiredBranch_eq_skip now2 swName (wiredPrep now2 d1 c) h' c
            (by simpa using h1)]
          exact ⟨rfl, rfl⟩
      · have hw' : c.is_wired = false := by simpa using hw
        rw [connectivityStep_present_wireless now2 apName swName d1 h' c hw']
        by_cases h1 : truthy c.ap_mac = true
        · have hap : d1.current_ap_mac = some (c.ap_mac.getD "") := by
            rw [hd1]
            unfold process_device
            rw [(blockedStep_device_fields blocked _).2.2.1]
            rw [connectivityStep_present_wireless now1 apName swName d h c hw']
            exact wirelessBranch_ap_after now1 apName (wirelessPrep now1 d c) h c h1
          rw [wirelessBranch_eq_same now2 apName (wirelessPrep now2 d1 c) h' c h1 hconn hap]
          exact ⟨rfl, rfl⟩
        · rw [wirelessBranch_eq_skip now2 apName (wirelessPrep now2 d1 c) h' c
            (by simpa using h1)]
          exact ⟨rfl, rfl⟩
  have hpres := connectivityStep_device_pres now2 apName swName d1 client h'
  have hnoop : blockedStep blocked (connectivityStep now2 apName swName d1 client h')
      = connectivityStep now2 apName swName d1 client h' := by
    apply blockedStep_noop_after
    intro b hb
    rw [hpres.2.2]
    exact hreb b hb
  constructor
  · show (blockedStep blocked (connectivityStep now2 apName swName d1 client h')).history = h'
    rw [hnoop]
    exact hkey.1
  · show (blockedStep blocked (connectivityStep now2 apName swName d1 client h')).events = []
    rw [hnoop]
    exact hkey.2

theorem openCount_append_open (did : Nat) (h : List ConnectionHistory)
    (e : ConnectionHistory) (heid : e.device_id = did)
    (heop : e.disconnected_at = none) :
    openCount did (h ++ [e]) = openCount did h + 1 := by
  unfold openCount
  rw [List.filter_append]
  simp [isOpenFor, heid, heop]

theorem truthy_getD (o : Option String) (h : truthy o = true) :
    truthy (some (o.getD "")) = true := by
  cases o with
  | none => simp [truthy] at h
  | some s => simpa [truthy] using h

theorem consistent_connectivity (now : Int) (apName swName : String → String)
    (d : TrackedDevice) (client : Option Client) (h : List ConnectionHistory)
    (hcons : Consistent d h) (hflip : NoFlip d client) :
    Consistent (connectivityStep now apName swName d client h).device
      (connectivityStep now apName swName d client h).history := by
  obtain ⟨hc1, hc2, hc3, hc4⟩ := hcons
  cases client with
  | none =>
    by_cases hd : d.is_connected = true
    · rw [connectivityStep_absent_conn now apName swName d h hd]
      refine ⟨?_, ?_, ?_, ?_⟩
      · show openCount d.id (close_connection_history now d.id h) ≤ 1
        rw [openCount_close]
        omega
      · intro _
        show openCount d.id (close_connection_history now d.id h) = 0
        rw [openCount_close]
        omega
      · intro hx
        exact absurd hx (by simp)
      · intro hx
        exact absurd hx (by simp)
    · rw [connectivityStep_absent_disc now apName swName d h (by simpa using hd)]
      exact ⟨hc1, hc2, hc3, hc4⟩
  | some c =>
    have hflip' : d.is_connected = true → c.is_wired = d.is_wired :=
      fun hcn => hflip c rfl hcn
    by_cases hw : c.is_wired = true
    · rw [connectivityStep_present_wired now apName swName d h c hw]
      by_cases h1 : truthy c.sw_mac = true
      · by_cases h2 : (wiredPrep now d c).current_switch_mac
            ≠ some (c.sw_mac.getD "") ∨
            (wiredPrep now d c).current_switch_port ≠ c.sw_port
        · rw [wiredBranch_eq_roam now swName (wiredPrep now d c) h c h1 h2]
          have hzero :
              openCount d.id
                (if (wiredPrep now d c).is_connected = true ∧
                    truthy (wiredPrep now d c).current_switch_mac = true
                  then close_connection_history now (wiredPrep now d c).id h
                  else h) = 0 := by
            by_cases h3 : (wiredPrep now d c).is_connected = true ∧
                truthy (wiredPrep now d c).current_switch_mac = true
            · rw [if_pos h3]
              have : openCount d.id
                  (close_connection_history now (wiredPrep now d c).id h)
                  = openCount d.id h - 1 := openCount_close now d.id h
              omega
            · rw [if_neg h3]
              have h3' : ¬(d.is_connected = true ∧
                  truthy d.current_switch_mac = true) := h3
              by_cases hdc : d.is_connected = true
              · have hwired : d.is_wired = true := by rw [← hflip' hdc]; exact hw
                rcases hc3 hdc hwired with ht | hz
                · exact absurd ⟨hdc, ht⟩ h3'
                · exact hz
              · exact hc2 (by simpa using hdc)
          refine ⟨?_, ?_, ?_, ?_⟩
          · show openCount d.id (_ ++ [newWiredHistory now d.id (c.sw_mac.getD "")
              (swName (c.sw_mac.getD "")) c.sw_port]) ≤ 1
            rw [openCount_append_open d.id _ _ (by simp [newWiredHistory])
              (by simp [newWiredHistory]), hzero]
          · intro hx
            exact absurd hx (by simp)
          · intro _ _
            left
            exact truthy_getD c.sw_mac h1
          · intro _ hx
            rw [show ({ (wiredPrep now d c) with
                current_switch_mac := some (c.sw_mac.getD ""),
                current_switch_name := some (swName (c.sw_mac.getD "")),
                current_switch_port := c.sw_port,
                current_ap_mac := none, current_ap_name := none,
                is_connected := true } : TrackedDevice).is_wired = c.is_wired
              from rfl] at hx
            exact absurd (hx ▸ hw) (by simp [hx])
        · push_neg at h2
          rw [wiredBranch_eq_same now swName (wiredPrep now d c) h c h2.1 h2.2]
          refine ⟨hc1, ?_, ?_, ?_⟩
          · intro hx
            exact absurd hx (by simp)
          · intro _ _
            left
            show truthy d.current_switch_mac = true
            have : d.current_switch_mac = some (c.sw_mac.getD "") := h2.1
            rw [this]
            exact truthy_getD c.sw_mac h1
          · intro _ hx
            have : c.is_wired = false := hx
            rw [this] at hw
            exact absurd hw (by simp)
      · rw [wiredBranch_eq_skip now swName (wiredPrep now d c) h c (by simpa using h1)]
        refine ⟨hc1, ?_, ?_, ?_⟩
        · intro hx
          exact absurd hx (by simp)
        · intro _ _
          show truthy d.current_switch_mac = true ∨ openCount d.id h = 0
          by_cases hdc : d.is_connected = true
          · have hwired : d.is_wired = true := by rw [← hflip' hdc]; exact hw
            exact hc3 hdc hwired
          · right
            exact hc2 (by simpa using hdc)
        · intro _ hx
          have : c.is_wired = false := hx
          rw [this] at hw
          exact absurd hw (by simp)
    · have hw' : c.is_wired = false := by simpa using hw
      rw [connectivityStep_present_wireless now apName swName d h c hw']
      by_cases h1 : truthy c.ap_mac = true
      · by_cases h2 : (wirelessPrep now d c).is_connected = true
        · by_cases h3 : (wirelessPrep now d c).current_ap_mac
              = some (c.ap_mac.getD "")
          · rw [wirelessBranch_eq_same now apName (wirelessPrep now d c) h c h1 h2 h3]
            refine ⟨hc1, ?_, ?_, ?_⟩
            · intro hx
              exact absurd hx (by simp)
            · intro _ hx
              have : c.is_wired = true := hx
              rw [this] at hw'
              exact absurd hw' (by simp)
            · intro _ _
              left
              show truthy d.current_ap_mac = true
              have : d.current_ap_mac = some (c.ap_mac.getD "") := h3
              rw [this]
              exact truthy_getD c.ap_mac h1
          · rw [wirelessBranch_eq_roam now apName (wirelessPrep now d c) h c h1 h2 h3]
            have hzero :
                openCount d.id
                  (if truthy (wirelessPrep now d c).current_ap_mac
                    then close_connection_history now (wirelessPrep now d c).id h
                    else h) = 0 := by
              by_cases h4 : truthy (wirelessPrep now d c).current_ap_mac = true
              · rw [if_pos h4]
                have : openCount d.id
                    (close_connection_history now (wirelessPrep now d c).id h)
                    = openCount d.id h - 1 := openCount_close now d.id h
                omega
              · rw [if_neg (by simpa using h4)]
                have hdc : d.is_connected = true := h2
                have hwl : d.is_wired = false := by rw [← hflip' hdc]; exact hw'
                rcases hc4 hdc hwl with ht | hz
                · exact absurd ht h4
                · exact hz
            refine ⟨?_, ?_, ?_, ?_⟩
            · show openCount d.id (_ ++ [newWirelessHistory now d.id (c.ap_mac.getD "")
                (apName (c.ap_mac.getD "")) c.essid c.signal]) ≤ 1
              rw [openCount_append_open d.id _ _ (by simp [newWirelessHistory])
                (by simp [newWirelessHistory]), hzero]
            · intro hx
              exact absurd hx (by simp)
            · intro _ hx
              have : c.is_wired = true := hx
              rw [this] at hw'
              exact absurd hw' (by simp)
            · intro _ _
              left
              exact truthy_getD c.ap_mac h1
        · rw [wirelessBranch_eq_connect now apName (wirelessPrep now d c) h c h1
            (by simpa using h2)]
          have hdc : d.is_connected = false := by simpa using h2
          have hzero : openCount d.id h = 0 := hc2 hdc
          refine ⟨?_, ?_, ?_, ?_⟩
          · show openCount d.id (h ++ [newWirelessHistory now d.id (c.ap_mac.getD "")
              (apName (c.ap_mac.getD "")) c.essid c.signal]) ≤ 1
            rw [openCount_append_open d.id _ _ (by simp [newWirelessHistory])
              (by simp [newWirelessHistory]), hzero]
          · intro hx
            exact absurd hx (by simp)
          · intro _ hx
            have : c.is_wired = true := hx
            rw [this] at hw'
            exact absurd hw' (by simp)
          · intro _ _
            left
            exact truthy_getD c.ap_mac h1
      · rw [wirelessBranch_eq_skip now apName (wirelessPrep now d c) h c
          (by simpa using h1)]
        refine ⟨hc1, ?_, ?_, ?_⟩
        · intro hx
          exact absurd hx (by simp)
        · intro _ hx
          have : c.is_wired = true := hx
          rw [this] at hw'
          exact absurd hw' (by simp)
        · intro _ _
          show truthy d.current_ap_mac = true ∨ openCount d.id h = 0
          by_cases hdc : d.is_connected = true
          · have hwl : d.is_wired = false := by rw [← hflip' hdc]; exact hw'
            exact hc4 hdc hwl
          · right
            exact hc2 (by simpa using hdc)

theorem consistent_blockedStep (blocked : Option Bool) (r : ProcResult)
    (hc : Consistent r.device r.history) :
    Consistent (blockedStep blocked r).device (blockedStep blocked r).history := by
  cases blocked with
  | none => exact hc
  | some b =>
    by_cases hb : r.device.is_blocked = b
    · rw [blockedStep_eq_same b r hb]
      exact hc
    · rw [blockedStep_eq_flip b r hb]
      obtain ⟨hc1, hc2, hc3, hc4⟩ := hc
      exact ⟨hc1, hc2, hc3, hc4⟩

theorem consistent_process (now : Int) (apName swName : String → String)
    (d : TrackedDevice) (client : Option Client) (h : List ConnectionHistory)
    (blocked : Option Bool)
    (hcons : Consistent d h) (hflip : NoFlip d client) :
    Consistent (process_device now apName swName d client h blocked).device
      (process_device now apName swName d client h blocked).history := by
  unfold process_device
  exact consistent_blockedStep blocked _
    (consistent_connectivity now apName swName d client h hcons hflip)

theorem openCount_congr (did : Nat) (h₁ h₂ : List ConnectionHistory)
    (hfe : ownRows did h₁ = ownRows did h₂) :
    openCount did h₁ = openCount did h₂ := by
  unfold openCount
  rw [filter_isOpenFor_eq, filter_isOpenFor_eq, hfe]

theorem consistent_congr (dv : TrackedDevice) (h₁ h₂ : List ConnectionHistory)
    (hfe : ownRows dv.id h₁ = ownRows dv.id h₂) (hc : Consistent dv h₁) :
    Consistent dv h₂ := by
  unfold Consistent at hc ⊢
  rw [← openCount_congr dv.id h₁ h₂ hfe]
  exact hc

theorem runCycle_nil (now : Int) (apName swName : String → String)
    (clients : String → Option Client) (blockedQ : String → Option Bool)
    (h : List ConnectionHistory) :
    runCycle now apName swName clients blockedQ [] h = ⟨[], h, []⟩ := rfl

theorem runCycle_cons (now : Int) (apName swName : String → String)
    (clients : String → Option Client) (blockedQ : String → Option Bool)
    (d : TrackedDevice) (ds : List TrackedDevice) (h : List ConnectionHistory) :
    runCycle now apName swName clients blockedQ (d :: ds) h =
      ⟨(process_device now apName swName d (clients (lowerStr d.mac_address)) h
          (blockedQ (lowerStr d.mac_address))).device ::
        (runCycle now apName swName clients blockedQ ds
          (process_device now apName swName d (clients (lowerStr d.mac_address)) h
            (blockedQ (lowerStr d.mac_address))).history).devices,
        (runCycle now apName swName clients blockedQ ds
          (process_device now apName swName d (clients (lowerStr d.mac_address)) h
            (blockedQ (lowerStr d.mac_address))).history).history,
        (process_device now apName swName d (clients (lowerStr d.mac_address)) h
          (blockedQ (lowerStr d.mac_address))).events.map (fun e => (d.id, e)) ++
        (runCycle now apName swName clients blockedQ ds
          (process_device now apName swName d (clients (lowerStr d.mac_address)) h
            (blockedQ (lowerStr d.mac_address))).history).events⟩ := rfl

theorem runCycle_frame (now : Int) (apName swName : String → String)
    (clients : String → Option Client) (blockedQ : String → Option Bool)
    (ds : List TrackedDevice) (h : List ConnectionHistory) (did : Nat)
    (hne : ∀ dv ∈ ds, dv.id ≠ did) :
    ownRows did (runCycle now apName swName clients blockedQ ds h).history
      = ownRows did h := by
  induction ds generalizing h with
  | nil => rfl
  | cons d ds ih =>
    rw [runCycle_cons]
    have htail := ih
      (process_device now apName swName d (clients (lowerStr d.mac_address)) h
        (blockedQ (lowerStr d.mac_address))).history
      (fun dv hm => hne dv (List.mem_cons_of_mem d hm))
    rw [htail]
    exact process_frame now apName swName d _ h _ did
      (Ne.symm (hne d (List.mem_cons_self d ds)))

theorem runCycle_consistent (now : Int) (apName swName : String → String)
    (clients : String → Option Client) (blockedQ : String → Option Bool)
    (ds : List TrackedDevice) (h : List ConnectionHistory)
    (hcons : ∀ dv ∈ ds, Consistent dv h)
    (hids : ds.Pairwise (fun x y => x.id ≠ y.id))
    (hflip : ∀ dv ∈ ds, NoFlip dv (clients (lowerStr dv.mac_address))) :
    ∀ dv ∈ (runCycle now apName swName clients blockedQ ds h).devices,
      Consistent dv (runCycle now apName swName clients blockedQ ds h).history := by
  induction ds generalizing h with
  | nil => intro dv hm; cases hm
  | cons d ds ih =>
    rw [runCycle_cons]
    intro dv hm
    have hr := consistent_process now apName swName d (clients (lowerStr d.mac_address))
      h (blockedQ (lowerStr d.mac_address))
      (hcons d (List.mem_cons_self d ds)) (hflip d (List.mem_cons_self d ds))
    have hpid : (process_device now apName swName d (clients (lowerStr d.mac_address)) h
        (blockedQ (lowerStr d.mac_address))).device.id = d.id :=
      process_device_id now apName swName d _ h _
    rcases List.mem_cons.1 hm with heq | hmem
    · -- the head device: its rows are untouched by the rest of the cycle
      have hfr := runCycle_frame now apName swName clients blockedQ ds
        (process_device now apName swName d (clients (lowerStr d.mac_address)) h
          (blockedQ (lowerStr d.mac_address))).history
        (process_device now apName swName d (clients (lowerStr d.mac_address)) h
          (blockedQ (lowerStr d.mac_address))).device.id
        (fun dv' hm' => by
          rw [hpid]
          exact Ne.symm ((List.pairwise_cons.1 hids).1 dv' hm'))
      rw [heq]
      exact consistent_congr _ _ _ hfr.symm hr
    · -- a tail device: processed by the recursive call
      have hconsTail : ∀ dv' ∈ ds, Consistent dv'
          (process_device now apName swName d (clients (lowerStr d.mac_address)) h
            (blockedQ (lowerStr d.mac_address))).history := by
        intro dv' hm'
        have hne : dv'.id ≠ d.id :=
          Ne.symm ((List.pairwise_cons.1 hids).1 dv' hm')
        have hfr := process_frame now apName swName d
          (clients (lowerStr d.mac_address)) h (blockedQ (lowerStr d.mac_address))
          dv'.id hne
        exact consistent_congr dv' _ _ hfr.symm (hcons dv' (List.mem_cons_of_mem d hm'))
      exact ih _ hconsTail (List.pairwise_cons.1 hids).2
        (fun dv' hm' => hflip dv' (List.mem_cons_of_mem d hm')) dv hmem

theorem wiredBranch_events_shape (now : Int) (swName : String → String)
    (d : TrackedDevice) (h : List ConnectionHistory) (c : Client) :
    (wiredBranch now swName d h c).events = [] ∨
    (wiredBranch now swName d h c).events = [Event.roamed] := by
  simp only [wiredBranch]
  split_ifs <;> simp

theorem wirelessBranch_events_shape (now : Int) (apName : String → String)
    (d : TrackedDevice) (h : List ConnectionHistory) (c : Client) :
    (wirelessBranch now apName d h c).events = [] ∨
    (wirelessBranch now apName d h c).events = [Event.roamed] ∨
    ∃ off, (wirelessBranch now apName d h c).events = [Event.connected off] := by
  simp only [wirelessBranch]
  split_ifs <;> simp

theorem connectivityStep_no_blocked_events (now : Int)
    (apName swName : String → String) (d : TrackedDevice)
    (client : Option Client) (h : List ConnectionHistory) :
    ∀ e ∈ (connectivityStep now apName swName d client h).events,
      e ≠ Event.blocked ∧ e ≠ Event.unblocked := by
  cases client with
  | none =>
    by_cases hd : d.is_connected = true
    · rw [connectivityStep_absent_conn now apName swName d h hd]
      intro e he
      rcases List.mem_singleton.1 he with rfl
      exact ⟨by simp, by simp⟩
    · rw [connectivityStep_absent_disc now apName swName d h (by simpa using hd)]
      intro e he
      cases he
  | some c =>
    by_cases hw : c.is_wired = true
    · rw [connectivityStep_present_wired now apName swName d h c hw]
      intro e he
      rcases wiredBranch_events_shape now swName (wiredPrep now d c) h c with hs | hs <;>
        rw [hs] at he
      · cases he
      · rcases List.mem_singleton.1 he with rfl
        exact ⟨by simp, by simp⟩
    · rw [connectivityStep_present_wireless now apName swName d h c (by simpa using hw)]
      intro e he
      rcases wirelessBranch_events_shape now apName (wirelessPrep now d c) h c with
        hs | hs | ⟨off, hs⟩ <;> rw [hs] at he
      · cases he
      · rcases List.mem_singleton.1 he with rfl
        exact ⟨by simp, by simp⟩
      · rcases List.mem_singleton.1 he with rfl
        exact ⟨by simp, by simp⟩

/-- Claim C6: for every tracked device on every cycle, a `blocked`
notification is emitted exactly when the live blocked-status query returns
`true` while the stored `is_blocked` flag is `false`, an `unblocked`
notification exactly on the opposite flip, each exactly once per flip, and
neither is emitted when the live value equals the stored flag (or the
lookup raises, modelled by `blocked = none`). -/
theorem C6_blocked_edge_trigger (now : Int) (apName swName : String → String)
    (d : TrackedDevice) (client : Option Client) (h : List ConnectionHistory)
    (blocked : Option Bool) :
    ((process_device now apName swName d client h blocked).events.count Event.blocked
        = if blocked = some true ∧ d.is_blocked = false then 1 else 0) ∧
    ((process_device now apName swName d client h blocked).events.count Event.unblocked
        = if blocked = some false ∧ d.is_blocked = true then 1 else 0) := by
  have hzero : ∀ a, (a = Event.blocked ∨ a = Event.unblocked) →
      (connectivityStep now apName swName d client h).events.count a = 0 := by
    intro a ha
    rw [List.count_eq_zero]
    intro hmem
    rcases ha with rfl | rfl
    · exact (connectivityStep_no_blocked_events now apName swName d client h _ hmem).1 rfl
    · exact (connectivityStep_no_blocked_events now apName swName d client h _ hmem).2 rfl
  have hib : (connectivityStep now apName swName d client h).device.is_blocked
      = d.is_blocked :=
    (connectivityStep_device_pres now apName swName d client h).2.2
  unfold process_device
  cases blocked with
  | none =>
    rw [blockedStep_eq_none]
    constructor
    · rw [hzero Event.blocked (Or.inl rfl), if_neg (by rintro ⟨hc, -⟩; cases hc)]
    · rw [hzero Event.unblocked (Or.inr rfl), if_neg (by rintro ⟨hc, -⟩; cases hc)]
  | some b =>
    cases b with
    | true =>
      cases hdb : d.is_blocked with
      | false =>
        rw [blockedStep_eq_flip true _ (by rw [hib, hdb]; simp)]
        refine ⟨?_, ?_⟩
        · rw [List.count_append, hzero Event.blocked (Or.inl rfl)]
          decide
        · rw [List.count_append, hzero Event.unblocked (Or.inr rfl)]
          decide
      | true =>
        rw [blockedStep_eq_same true _ (by rw [hib, hdb])]
        refine ⟨?_, ?_⟩
        · rw [hzero Event.blocked (Or.inl rfl)]
          decide
        · rw [hzero Event.unblocked (Or.inr rfl)]
          decide
    | false =>
      cases hdb : d.is_blocked with
      | true =>
        rw [blockedStep_eq_flip false _ (by rw [hib, hdb]; simp)]
        refine ⟨?_, ?_⟩
        · rw [List.count_append, hzero Event.blocked (Or.inl rfl)]
          decide
        · rw [List.count_append, hzero Event.unblocked (Or.inr rfl)]
          decide
      | false =>
        rw [blockedStep_eq_same false _ (by rw [hib, hdb])]
        refine ⟨?_, ?_⟩
        · rw [hzero Event.blocked (Or.inl rfl)]
          decide
        · rw [hzero Event.unblocked (Or.inr rfl)]
          decide

/-- Claim C5 (amended): closing an open interval normalizes a naive
`connected_at` or `disconnected_at` to UTC and sets `duration_seconds` to
the whole-second difference `disconnected_at − connected_at`, with the same
result for any combination of timezone-annotated and naive inputs denoting
the same instants; the difference is non-negative whenever `connected_at`
does not lie after the close time.  (The code does not clamp: a
`connected_at` in the future of the close time yields a negative
`duration_seconds`, see the counterexample.) -/
theorem C5_close_duration (now : Int) (e e' : ConnectionHistory)
    (hsame : e.connected_at.instant = e'.connected_at.instant)
    (hord : e.connected_at.instant ≤ now) :
    (closeEntry now e).duration_seconds = some (now - e.connected_at.instant) ∧
    (closeEntry now e).duration_seconds = (closeEntry now e').duration_seconds ∧
    (∀ dur, (closeEntry now e).duration_seconds = some dur → 0 ≤ dur) ∧
    (closeEntry now e).disconnected_at = some (PyDateTime.utcNow now) := by
  have hdur : ∀ x : ConnectionHistory,
      (closeEntry now x).duration_seconds = some (now - x.connected_at.instant) := by
    intro x
    simp [closeEntry]
  refine ⟨hdur e, ?_, ?_, rfl⟩
  · rw [hdur e, hdur e', hsame]
  · intro dur hd
    rw [hdur e] at hd
    have := Option.some.inj hd
    omega

/-- Claim C5 counterexample: the claim asserts a non-negative
`duration_seconds` for every open interval being closed, but closing an
open row whose `connected_at` (naive, read as UTC) lies after the close
time stores a negative duration: there is no clamping in
`close_connection_history`. -/
theorem C5_counterexample :
    (close_connection_history 40 1
      [{ device_id := 1, ap_mac := none, ap_name := none, ssid := none,
         connected_at := ⟨100, none⟩, disconnected_at := none,
         duration_seconds := none, signal_strength := none, is_wired := false,
         switch_mac := none, switch_name := none,
         switch_port := none }]).map (fun e => e.duration_seconds)
      = [some (-60)] ∧ (-60 : Int) < 0 := by
  constructor
  · rfl
  · decide

/-- Witness for C5: closing a naive-UTC `connected_at` and a
timezone-annotated representation of the same instant gives the same
duration, at close time 25. -/
theorem C5_close_duration_witness :
    ((ConnectionHistory.mk 1 none none none ⟨10, none⟩ none none none false none none none).connected_at.instant
      = (ConnectionHistory.mk 1 none none none ⟨13, some 3⟩ none none none false none none none).connected_at.instant) ∧
    ((ConnectionHistory.mk 1 none none none ⟨10, none⟩ none none none false none none none).connected_at.instant ≤ 25) ∧
    (closeEntry 25 (ConnectionHistory.mk 1 none none none ⟨10, none⟩ none none none false none none none)).duration_seconds
      = (closeEntry 25 (ConnectionHistory.mk 1 none none none ⟨13, some 3⟩ none none none false none none none)).duration_seconds :=
  ⟨by decide, by decide,
    (C5_close_duration 25
      (ConnectionHistory.mk 1 none none none ⟨10, none⟩ none none none false none none none)
      (ConnectionHistory.mk 1 none none none ⟨13, some 3⟩ none none none false none none none)
      (by decide) (by decide)).2.1⟩

/-- Claim C10: a device present in the snapshot always ends processing with
`is_connected = true`, even when its descriptor carries neither an AP
identity (wireless) nor a switch identity (wired); in that location-less
case the history table is untouched (no interval opened) and no
connected/roamed/disconnected notification is emitted — at most
blocked-status notifications fire. -/
theorem C10_connected_without_location (now : Int) (apName swName : String → String)
    (d : TrackedDevice) (c : Client) (h : List ConnectionHistory)
    (blocked : Option Bool) :
    (process_device now apName swName d (some c) h blocked).device.is_connected
      = true ∧
    ((c.is_wired = true → truthy c.sw_mac = false) →
     (c.is_wired = false → truthy c.ap_mac = false) →
      (process_device now apName swName d (some c) h blocked).history = h ∧
      ∀ e ∈ (process_device now apName swName d (some c) h blocked).events,
        e = Event.blocked ∨ e = Event.unblocked) := by
  constructor
  · unfold process_device
    rw [blockedStep_device_is_connected]
    exact connectivityStep_present_connected now apName swName d h c
  · intro hsw hap
    have hkey : (connectivityStep now apName swName d (some c) h).history = h ∧
        (connectivityStep now apName swName d (some c) h).events = [] := by
      by_cases hw : c.is_wired = true
      · rw [connectivityStep_present_wired now apName swName d h c hw,
            wiredBranch_eq_skip now swName (wiredPrep now d c) h c (hsw hw)]
        exact ⟨rfl, rfl⟩
      · have hw' : c.is_wired = false := by simpa using hw
        rw [connectivityStep_present_wireless now apName swName d h c hw',
            wirelessBranch_eq_skip now apName (wirelessPrep now d c) h c (hap hw')]
        exact ⟨rfl, rfl⟩
    constructor
    · unfold process_device
      rw [blockedStep_history, hkey.1]
    · unfold process_device
      obtain ⟨tail, htl, htail⟩ := blockedStep_events blocked
        (connectivityStep now apName swName d (some c) h)
      rw [htl, hkey.2]
      intro e he
      exact htail e (by simpa using he)

/-- Witness for C10: a previously-disconnected wireless device whose
descriptor has no AP identity is marked connected with no interval and no
connectivity notification. -/
theorem C10_connected_without_location_witness :
    (process_device 10 (fun _ => "AP") (fun _ => "SW") (baseDevice 1 "aa:bb")
      (some (Client.mk none none none false none none none none))
      [] none).device.is_connected = true ∧
    (((Client.mk none none none false none none none none).is_wired = true →
        truthy (Client.mk none none none false none none none none).sw_mac = false) →
     ((Client.mk none none none false none none none none).is_wired = false →
        truthy (Client.mk none none none false none none none none).ap_mac = false) →
      (process_device 10 (fun _ => "AP") (fun _ => "SW") (baseDevice 1 "aa:bb")
        (some (Client.mk none none none false none none none none))
        [] none).history = [] ∧
      ∀ e ∈ (process_device 10 (fun _ => "AP") (fun _ => "SW") (baseDevice 1 "aa:bb")
        (some (Client.mk none none none false none none none none))
        [] none).events, e = Event.blocked ∨ e = Event.unblocked) :=
  C10_connected_without_location 10 (fun _ => "AP") (fun _ => "SW")
    (baseDevice 1 "aa:bb") (Client.mk none none none false none none none none)
    [] none

theorem runCycle_stable (now : Int) (apName swName : String → String)
    (clients : String → Option Client) (blockedQ : String → Option Bool)
    (ds : List TrackedDevice) (h : List ConnectionHistory)
    (hst : ∀ dv ∈ ds, ∀ h' : List ConnectionHistory,
      (process_device now apName swName dv (clients (lowerStr dv.mac_address)) h'
        (blockedQ (lowerStr dv.mac_address))).history = h' ∧
      (process_device now apName swName dv (clients (lowerStr dv.mac_address)) h'
        (blockedQ (lowerStr dv.mac_address))).events = []) :
    (runCycle now apName swName clients blockedQ ds h).history = h ∧
    (runCycle now apName swName clients blockedQ ds h).events = [] := by
  induction ds generalizing h with
  | nil => exact ⟨rfl, rfl⟩
  | cons d ds ih =>
    rw [runCycle_cons]
    obtain ⟨hh, he⟩ := hst d (List.mem_cons_self d ds) h
    have ihd := ih
      (process_device now apName swName d (clients (lowerStr d.mac_address)) h
        (blockedQ (lowerStr d.mac_address))).history
      (fun dv hm h' => hst dv (List.mem_cons_of_mem d hm) h')
    constructor
    · rw [ihd.1, hh]
    · rw [he, ihd.2]
      simp

theorem runCycle_devices_shape (now : Int) (apName swName : String → String)
    (clients : String → Option Client) (blockedQ : String → Option Bool)
    (ds : List TrackedDevice) (h : List ConnectionHistory) :
    ∀ dv ∈ (runCycle now apName swName clients blockedQ ds h).devices,
      ∃ d₀, d₀ ∈ ds ∧ ∃ h₀,
        dv = (process_device now apName swName d₀ (clients (lowerStr d₀.mac_address))
          h₀ (blockedQ (lowerStr d₀.mac_address))).device := by
  induction ds generalizing h with
  | nil => intro dv hm; cases hm
  | cons d ds ih =>
    rw [runCycle_cons]
    intro dv hm
    rcases List.mem_cons.1 hm with heq | hmem
    · exact ⟨d, List.mem_cons_self d ds, h, heq⟩
    · obtain ⟨d₀, hd₀, h₀, heq⟩ := ih _ dv hmem
      exact ⟨d₀, List.mem_cons_of_mem d hd₀, h₀, heq⟩

/-- Claim C4: re-running the per-device reconciliation loop over the device
rows and history produced by a first run, with the snapshot and the live
blocked-status query results unchanged, creates no interval, closes no
interval (the history table is returned unchanged), and emits no
notification for any device. -/
theorem C4_idempotence (now1 now2 : Int) (apName swName : String → String)
    (clients : String → Option Client) (blockedQ : String → Option Bool)
    (devices : List TrackedDevice) (history : List ConnectionHistory) :
    (runCycle now2 apName swName clients blockedQ
        (runCycle now1 apName swName clients blockedQ devices history).devices
        (runCycle now1 apName swName clients blockedQ devices history).history).history
      = (runCycle now1 apName swName clients blockedQ devices history).history ∧
    (runCycle now2 apName swName clients blockedQ
        (runCycle now1 apName swName clients blockedQ devices history).devices
        (runCycle now1 apName swName clients blockedQ devices history).history).events
      = [] := by
  apply runCycle_stable
  intro dv hm h'
  obtain ⟨d₀, hd₀, h₀, heq⟩ := runCycle_devices_shape now1 apName swName clients
    blockedQ devices history dv hm
  rw [heq, process_device_mac now1 apName swName d₀
    (clients (lowerStr d₀.mac_address)) h₀ (blockedQ (lowerStr d₀.mac_address))]
  exact process_stable now1 now2 apName swName d₀
    (clients (lowerStr d₀.mac_address)) h₀ h' (blockedQ (lowerStr d₀.mac_address))

/-- Claim C3 (amended): a tracked device stored as disconnected that appears
in the snapshot as a wireless client with an AP identity gets one new open
interval at the reported AP, is marked connected, and exactly one
`connected` notification is emitted whose `offline_duration` is now minus
the UTC-normalized `disconnected_at` of the most recently closed interval,
or null when the device has no prior closed interval.  (Contrary to the
original claim this does not hold for wired devices: a wired device coming
online takes the wired branch, which emits `roamed` — or nothing when the
stored switch location matches — and never `connected`; see the
counterexample.) -/
theorem C3_connect_wireless (now : Int) (apName swName : String → String)
    (d : TrackedDevice) (c : Client) (h : List ConnectionHistory)
    (blocked : Option Bool)
    (hdisc : d.is_connected = false) (hwl : c.is_wired = false)
    (hap : truthy c.ap_mac = true) :
    (process_device now apName swName d (some c) h blocked).device.is_connected
      = true ∧
    (process_device now apName swName d (some c) h blocked).device.current_ap_mac
      = some (c.ap_mac.getD "") ∧
    (process_device now apName swName d (some c) h blocked).history
      = h ++ [newWirelessHistory now d.id (c.ap_mac.getD "")
          (apName (c.ap_mac.getD "")) c.essid c.signal] ∧
    (∃ tail, (process_device now apName swName d (some c) h blocked).events
        = Event.connected (offlineDuration now d.id h) :: tail ∧
      ∀ e ∈ tail, e = Event.blocked ∨ e = Event.unblocked) ∧
    (offlineDuration now d.id h = none ↔ lastClosed d.id h = none) ∧
    (∀ e, lastClosed d.id h = some e →
      offlineDuration now d.id h
        = some (now - ((e.disconnected_at.getD ⟨0, none⟩).toAware).instant)) := by
  have hhist : (connectivityStep now apName swName d (some c) h).history
      = h ++ [newWirelessHistory now d.id (c.ap_mac.getD "")
          (apName (c.ap_mac.getD "")) c.essid c.signal] := by
    rw [connectivityStep_present_wireless now apName swName d h c hwl,
        wirelessBranch_eq_connect now apName (wirelessPrep now d c) h c hap hdisc]
    rfl
  have hev : (connectivityStep now apName swName d (some c) h).events
      = [Event.connected (offlineDuration now d.id
          (h ++ [newWirelessHistory now d.id (c.ap_mac.getD "")
            (apName (c.ap_mac.getD "")) c.essid c.signal]))] := by
    rw [connectivityStep_present_wireless now apName swName d h c hwl,
        wirelessBranch_eq_connect now apName (wirelessPrep now d c) h c hap hdisc]
    rfl
  have hapm : (connectivityStep now apName swName d (some c) h).device.current_ap_mac
      = some (c.ap_mac.getD "") := by
    rw [connectivityStep_present_wireless now apName swName d h c hwl]
    exact wirelessBranch_ap_after now apName (wirelessPrep now d c) h c hap
  refine ⟨?_, ?_, ?_, ?_, ?_, ?_⟩
  · unfold process_device
    rw [blockedStep_device_is_connected]
    exact connectivityStep_present_connected now apName swName d h c
  · unfold process_device
    rw [(blockedStep_device_fields blocked _).2.2.1]
    exact hapm
  · unfold process_device
    rw [blockedStep_history]
    exact hhist
  · unfold process_device
    obtain ⟨tail, htl, htail⟩ := blockedStep_events blocked
      (connectivityStep now apName swName d (some c) h)
    refine ⟨tail, ?_, htail⟩
    rw [htl, hev, offlineDuration_append_open now d.id h _ rfl]
    rfl
  · cases hlc : lastClosed d.id h with
    | none => simp [offlineDuration, hlc]
    | some e => simp [offlineDuration, hlc]
  · intro e he
    simp [offlineDuration, he]

/-- Claim C3 counterexample: the claim asserts the connect behaviour "for
wired as well as wireless devices", but a wired device stored as
disconnected that appears in the snapshot attached to a switch is handled
by the wired branch, which emits a single `roamed` notification and no
`connected` notification at all. -/
theorem C3_counterexample :
    (process_device 50 (fun _ => "AP") (fun _ => "SW") (baseDevice 1 "aa:bb")
        (some (baseWiredClient "s1" (some 3))) [] none).events = [Event.roamed] ∧
    ∀ off : Option Int, Event.connected off ∉
      (process_device 50 (fun _ => "AP") (fun _ => "SW") (baseDevice 1 "aa:bb")
        (some (baseWiredClient "s1" (some 3))) [] none).events := by
  have h1 : (process_device 50 (fun _ => "AP") (fun _ => "SW") (baseDevice 1 "aa:bb")
      (some (baseWiredClient "s1" (some 3))) [] none).events = [Event.roamed] := by
    decide
  refine ⟨h1, ?_⟩
  intro off hmem
  rw [h1] at hmem
  simp at hmem

/-- Witness for C3: a disconnected device observed on AP "ap1" gets exactly
the new open wireless interval appended. -/
theorem C3_connect_wireless_witness :
    ((baseDevice 1 "aa:bb").is_connected = false ∧
     (baseWirelessClient "ap1").is_wired = false ∧
     truthy (baseWirelessClient "ap1").ap_mac = true) ∧
    (process_device 50 (fun _ => "AP") (fun _ => "SW") (baseDevice 1 "aa:bb")
        (some (baseWirelessClient "ap1")) [] none).history
      = [] ++ [newWirelessHistory 50 (baseDevice 1 "aa:bb").id
          ((baseWirelessClient "ap1").ap_mac.getD "")
          ((fun _ => "AP") ((baseWirelessClient "ap1").ap_mac.getD ""))
          (baseWirelessClient "ap1").essid (baseWirelessClient "ap1").signal] :=
  ⟨⟨by decide, by decide, by decide⟩,
    (C3_connect_wireless 50 (fun _ => "AP") (fun _ => "SW") (baseDevice 1 "aa:bb")
      (baseWirelessClient "ap1") [] none (by decide) (by decide) (by decide)).2.2.1⟩

theorem filter_isOpenFor_nil_of_openCount_zero (did : Nat)
    (h : List ConnectionHistory) (h0 : openCount did h = 0) :
    h.filter (isOpenFor did) = [] :=
  List.length_eq_zero.1 h0

/-- Claim C2 (amended): a tracked device stored as connected that appears in
the snapshot at a different location on the same medium (wireless with a
different AP, or wired with a different switch or port, the stored location
identity being recorded) has its most recent open interval closed, one new
open interval created at the new location, and exactly one `roamed`
notification emitted, with no `connected` or `disconnected` notification in
the same tick.  (Contrary to the original claim, when the medium differs
between the stored state and the snapshot the code still opens a new
interval and emits one `roamed` but does not close the previously open
interval, because the close guards test the old medium's identity fields,
which are empty after a flip — see the counterexample.) -/
theorem C2_same_medium_roam (now : Int) (apName swName : String → String)
    (d : TrackedDevice) (c : Client) (h : List ConnectionHistory)
    (blocked : Option Bool)
    (hconn : d.is_connected = true)
    (hmed : (c.is_wired = false ∧ d.is_wired = false ∧
              truthy d.current_ap_mac = true ∧ truthy c.ap_mac = true ∧
              d.current_ap_mac ≠ some (c.ap_mac.getD "")) ∨
            (c.is_wired = true ∧ d.is_wired = true ∧
              truthy d.current_switch_mac = true ∧ truthy c.sw_mac = true ∧
              (d.current_switch_mac ≠ some (c.sw_mac.getD "") ∨
               d.current_switch_port ≠ c.sw_port))) :
    ∃ newE,
      (process_device now apName swName d (some c) h blocked).history
        = close_connection_history now d.id h ++ [newE] ∧
      newE.device_id = d.id ∧ newE.disconnected_at = none ∧
      newE.connected_at = PyDateTime.utcNow now ∧ newE.is_wired = c.is_wired ∧
      (c.is_wired = false → newE.ap_mac = some (c.ap_mac.getD "")) ∧
      (c.is_wired = true → newE.switch_mac = some (c.sw_mac.getD "") ∧
        newE.switch_port = c.sw_port) ∧
      (∃ tail, (process_device now apName swName d (some c) h blocked).events
          = Event.roamed :: tail ∧
        ∀ e ∈ tail, e = Event.blocked ∨ e = Event.unblocked) ∧
      (openCount d.id h = 1 →
        (process_device now apName swName d (some c) h blocked).history.filter
          (isOpenFor d.id) = [newE]) := by
  rcases hmed with ⟨hwl, hdw, htap, htc, hne⟩ | ⟨hwd, hdw, htsw, htc, hne⟩
  · -- wireless roam
    have hhist : (connectivityStep now apName swName d (some c) h).history
        = close_connection_history now d.id h ++
          [newWirelessHistory now d.id (c.ap_mac.getD "")
            (apName (c.ap_mac.getD "")) c.essid c.signal] := by
      rw [connectivityStep_present_wireless now apName swName d h c hwl,
          wirelessBranch_eq_roam now apName (wirelessPrep now d c) h c htc hconn hne,
          if_pos (show truthy (wirelessPrep now d c).current_ap_mac = true from htap)]
      rfl
    have hev : (connectivityStep now apName swName d (some c) h).events
        = [Event.roamed] := by
      rw [connectivityStep_present_wireless now apName swName d h c hwl,
          wirelessBranch_eq_roam now apName (wirelessPrep now d c) h c htc hconn hne]
    have hph : (process_device now apName swName d (some c) h blocked).history
        = close_connection_history now d.id h ++
          [newWirelessHistory now d.id (c.ap_mac.getD "")
            (apName (c.ap_mac.getD "")) c.essid c.signal] := by
      unfold process_device
      rw [blockedStep_history]
      exact hhist
    refine ⟨newWirelessHistory now d.id (c.ap_mac.getD "")
      (apName (c.ap_mac.getD "")) c.essid c.signal,
      hph, rfl, rfl, rfl, hwl.symm, fun _ => rfl, ?_, ?_, ?_⟩
    · intro hx
      exact absurd hx (by simp [hwl])
    · unfold process_device
      obtain ⟨tail, htl, htail⟩ := blockedStep_events blocked
        (connectivityStep now apName swName d (some c) h)
      refine ⟨tail, ?_, htail⟩
      rw [htl, hev]
      rfl
    · intro hopen
      rw [hph, List.filter_append]
      have h0 : openCount d.id (close_connection_history now d.id h) = 0 := by
        rw [openCount_close, hopen]
      rw [filter_isOpenFor_nil_of_openCount_zero d.id _ h0]
      simp [isOpenFor, newWirelessHistory]
  · -- wired roam
    have hhist : (connectivityStep now apName swName d (some c) h).history
        = close_connection_history now d.id h ++
          [newWiredHistory now d.id (c.sw_mac.getD "")
            (swName (c.sw_mac.getD "")) c.sw_port] := by
      rw [connectivityStep_present_wired now apName swName d h c hwd,
          wiredBranch_eq_roam now swName (wiredPrep now d c) h c htc hne,
          if_pos (show (wiredPrep now d c).is_connected = true ∧
            truthy (wiredPrep now d c).current_switch_mac = true from ⟨hconn, htsw⟩)]
      rfl
    have hev : (connectivityStep now apName swName d (some c) h).events
        = [Event.roamed] := by
      rw [connectivityStep_present_wired now apName swName d h c hwd,
          wiredBranch_eq_roam now swName (wiredPrep now d c) h c htc hne]
    have hph : (process_device now apName swName d (some c) h blocked).history
        = close_connection_history now d.id h ++
          [newWiredHistory now d.id (c.sw_mac.getD "")
            (swName (c.sw_mac.getD "")) c.sw_port] := by
      unfold process_device
      rw [blockedStep_history]
      exact hhist
    refine ⟨newWiredHistory now d.id (c.sw_mac.getD "")
      (swName (c.sw_mac.getD "")) c.sw_port,
      hph, rfl, rfl, rfl, hwd.symm, ?_, fun _ => ⟨rfl, rfl⟩, ?_, ?_⟩
    · intro hx
      exact absurd hx (by simp [hwd])
    · unfold process_device
      obtain ⟨tail, htl, htail⟩ := blockedStep_events blocked
        (connectivityStep now apName swName d (some c) h)
      refine ⟨tail, ?_, htail⟩
      rw [htl, hev]
      rfl
    · intro hopen
      rw [hph, List.filter_append]
      have h0 : openCount d.id (close_connection_history now d.id h) = 0 := by
        rw [openCount_close, hopen]
      rw [filter_isOpenFor_nil_of_openCount_zero d.id _ h0]
      simp [isOpenFor, newWiredHistory]

/-- Claim C2 counterexample: a wired-connected device (one open wired
interval, stored switch identity set) reported by the snapshot as wireless
on an AP — a location change with a medium change, which the claim says must
close the current open interval.  Processing leaves the old interval open:
afterwards two rows for the device have a null `disconnected_at`. -/
theorem C2_counterexample :
    ((process_device 60 (fun _ => "AP") (fun _ => "SW")
      { (baseDevice 1 "aa:bb") with
        is_connected := true, is_wired := true,
        current_switch_mac := some "s1", current_switch_name := some "SW1",
        current_switch_port := some 3 }
      (some (baseWirelessClient "ap1"))
      [ConnectionHistory.mk 1 none none none ⟨5, some 0⟩ none none none true
        (some "s1") (some "SW1") (some 3)]
      none).history.filter (isOpenFor 1)).length = 2 := by decide

/-- Witness for C2: a wireless device roaming from AP "a0" to AP "a1" with
one open interval; the theorem applies with all hypotheses discharged
concretely. -/
theorem C2_same_medium_roam_witness :
    (({ (baseDevice 1 "aa:bb") with
        is_connected := true, current_ap_mac := some "a0",
        current_ap_name := some "AP0" } : TrackedDevice).is_connected = true ∧
     (((baseWirelessClient "a1").is_wired = false ∧
       ({ (baseDevice 1 "aa:bb") with
          is_connected := true, current_ap_mac := some "a0",
          current_ap_name := some "AP0" } : TrackedDevice).is_wired = false ∧
       truthy ({ (baseDevice 1 "aa:bb") with
          is_connected := true, current_ap_mac := some "a0",
          current_ap_name := some "AP0" } : TrackedDevice).current_ap_mac = true ∧
       truthy (baseWirelessClient "a1").ap_mac = true ∧
       ({ (baseDevice 1 "aa:bb") with
          is_connected := true, current_ap_mac := some "a0",
          current_ap_name := some "AP0" } : TrackedDevice).current_ap_mac
         ≠ some ((baseWirelessClient "a1").ap_mac.getD "")) ∨
      ((baseWirelessClient "a1").is_wired = true ∧
       ({ (baseDevice 1 "aa:bb") with
          is_connected := true, current_ap_mac := some "a0",
          current_ap_name := some "AP0" } : TrackedDevice).is_wired = true ∧
       truthy ({ (baseDevice 1 "aa:bb") with
          is_connected := true, current_ap_mac := some "a0",
          current_ap_name := some "AP0" } : TrackedDevice).current_switch_mac = true ∧
       truthy (baseWirelessClient "a1").sw_mac = true ∧
       (({ (baseDevice 1 "aa:bb") with
          is_connected := true, current_ap_mac := some "a0",
          current_ap_name := some "AP0" } : TrackedDevice).current_switch_mac
          ≠ some ((baseWirelessClient "a1").sw_mac.getD "") ∨
        ({ (baseDevice 1 "aa:bb") with
          is_connected := true, current_ap_mac := some "a0",
          current_ap_name := some "AP0" } : TrackedDevice).current_switch_port
          ≠ (baseWirelessClient "a1").sw_port)))) ∧
    (∃ newE,
      (process_device 60 (fun _ => "AP") (fun _ => "SW")
        { (baseDevice 1 "aa:bb") with
          is_connected := true, current_ap_mac := some "a0",
          current_ap_name := some "AP0" }
        (some (baseWirelessClient "a1"))
        [ConnectionHistory.mk 1 (some "a0") (some "AP0") none ⟨5, some 0⟩ none
          none none false none none none]
        none).history
        = close_connection_history 60 1
            [ConnectionHistory.mk 1 (some "a0") (some "AP0") none ⟨5, some 0⟩ none
              none none false none none none] ++ [newE] ∧
      newE.device_id = 1 ∧ newE.disconnected_at = none ∧
      newE.connected_at = PyDateTime.utcNow 60 ∧
      newE.is_wired = (baseWirelessClient "a1").is_wired ∧
      ((baseWirelessClient "a1").is_wired = false →
        newE.ap_mac = some ((baseWirelessClient "a1").ap_mac.getD "")) ∧
      ((baseWirelessClient "a1").is_wired = true →
        newE.switch_mac = some ((baseWirelessClient "a1").sw_mac.getD "") ∧
        newE.switch_port = (baseWirelessClient "a1").sw_port) ∧
      (∃ tail,
        (process_device 60 (fun _ => "AP") (fun _ => "SW")
          { (baseDevice 1 "aa:bb") with
            is_connected := true, current_ap_mac := some "a0",
            current_ap_name := some "AP0" }
          (some (baseWirelessClient "a1"))
          [ConnectionHistory.mk 1 (some "a0") (some "AP0") none ⟨5, some 0⟩ none
            none none false none none none]
          none).events = Event.roamed :: tail ∧
        ∀ e ∈ tail, e = Event.blocked ∨ e = Event.unblocked) ∧
      (openCount 1
          [ConnectionHistory.mk 1 (some "a0") (some "AP0") none ⟨5, some 0⟩ none
            none none false none none none] = 1 →
        (process_device 60 (fun _ => "AP") (fun _ => "SW")
          { (baseDevice 1 "aa:bb") with
            is_connected := true, current_ap_mac := some "a0",
            current_ap_name := some "AP0" }
          (some (baseWirelessClient "a1"))
          [ConnectionHistory.mk 1 (some "a0") (some "AP0") none ⟨5, some 0⟩ none
            none none false none none none]
          none).history.filter (isOpenFor 1) = [newE])) :=
  ⟨⟨by decide, by decide⟩,
    C2_same_medium_roam 60 (fun _ => "AP") (fun _ => "SW")
      { (baseDevice 1 "aa:bb") with
        is_connected := true, current_ap_mac := some "a0",
        current_ap_name := some "AP0" }
      (baseWirelessClient "a1")
      [ConnectionHistory.mk 1 (some "a0") (some "AP0") none ⟨5, some 0⟩ none
        none none false none none none]
      none (by decide) (by decide)⟩

theorem refresh_eq_noconn (now : Int) (apName swName : String → String)
    (snap : Snapshot) (blockedQ : String → Option Bool)
    (devices : List TrackedDevice) (history : List ConnectionHistory) :
    refresh_tracked_devices now apName swName false false snap blockedQ
      devices history = ⟨false, devices, history, [], 0⟩ := rfl

theorem refresh_eq_empty (now : Int) (apName swName : String → String)
    (cached connectOk : Bool) (snap : Snapshot) (blockedQ : String → Option Bool)
    (history : List ConnectionHistory)
    (hcl : cached = true ∨ connectOk = true) :
    refresh_tracked_devices now apName swName cached connectOk snap blockedQ
      [] history = ⟨true, [], history, [], 0⟩ := by
  rcases hcl with h | h
  · subst h
    cases connectOk <;> rfl
  · subst h
    cases cached <;> rfl

theorem refresh_eq_fetchfail (now : Int) (apName swName : String → String)
    (cached connectOk : Bool) (blockedQ : String → Option Bool)
    (d : TrackedDevice) (ds : List TrackedDevice)
    (history : List ConnectionHistory)
    (hcl : cached = true ∨ connectOk = true) :
    refresh_tracked_devices now apName swName cached connectOk
      Snapshot.fetchFailure blockedQ (d :: ds) history
      = ⟨false, d :: ds, history, [], 1⟩ := by
  rcases hcl with h | h
  · subst h
    cases connectOk <;> rfl
  · subst h
    cases cached <;> rfl

theorem refresh_eq_run (now : Int) (apName swName : String → String)
    (cached connectOk : Bool) (cl : String → Option Client)
    (blockedQ : String → Option Bool) (d : TrackedDevice)
    (ds : List TrackedDevice) (history : List ConnectionHistory)
    (hcl : cached = true ∨ connectOk = true) :
    refresh_tracked_devices now apName swName cached connectOk
      (Snapshot.ok cl) blockedQ (d :: ds) history
      = ⟨true, (runCycle now apName swName cl blockedQ (d :: ds) history).devices,
          (runCycle now apName swName cl blockedQ (d :: ds) history).history,
          (runCycle now apName swName cl blockedQ (d :: ds) history).events, 1⟩ := by
  rcases hcl with h | h
  · subst h
    cases connectOk <;> rfl
  · subst h
    cases cached <;> rfl

/-- Claim C1 (amended): at the end of every completed reconciliation cycle,
every tracked device has at most one ConnectionHistory row with a null
`disconnected_at`, provided the stored state was consistent beforehand
(`Consistent`: at most one open row per device, none for disconnected
devices, and connected devices either carry their current location identity
or have no open row) and no device that is connected in stored state
appears in the snapshot on the other medium (`NoFlip`).  (The original
claim's "regardless of the sequence of snapshots observed, including a
change of medium" is false: a wired↔wireless medium change while connected
leaves two open rows, because the close guards test the old medium's
identity fields — see the counterexample.) -/
theorem C1_at_most_one_open (now : Int) (apName swName : String → String)
    (cached connectOk : Bool) (snap : Snapshot) (blockedQ : String → Option Bool)
    (devices : List TrackedDevice) (history : List ConnectionHistory)
    (hcons : ∀ dv ∈ devices, Consistent dv history)
    (hids : devices.Pairwise (fun x y => x.id ≠ y.id))
    (hflip : ∀ cl, snap = Snapshot.ok cl →
      ∀ dv ∈ devices, NoFlip dv (cl (lowerStr dv.mac_address))) :
    ∀ dv ∈ (refresh_tracked_devices now apName swName cached connectOk snap
        blockedQ devices history).devices,
      ((refresh_tracked_devices now apName swName cached connectOk snap
        blockedQ devices history).history.filter (isOpenFor dv.id)).length ≤ 1 := by
  have hbase : ∀ dv ∈ devices, (history.filter (isOpenFor dv.id)).length ≤ 1 :=
    fun dv hm => (hcons dv hm).1
  by_cases hcl : cached = true ∨ connectOk = true
  · cases devices with
    | nil =>
      rw [refresh_eq_empty now apName swName cached connectOk snap blockedQ
        history hcl]
      intro dv hm
      cases hm
    | cons d ds =>
      cases snap with
      | fetchFailure =>
        rw [refresh_eq_fetchfail now apName swName cached connectOk blockedQ
          d ds history hcl]
        exact hbase
      | ok cl =>
        rw [refresh_eq_run now apName swName cached connectOk cl blockedQ
          d ds history hcl]
        intro dv hm
        exact (runCycle_consistent now apName swName cl blockedQ (d :: ds)
          history hcons hids (hflip cl rfl) dv hm).1
  · have hc1 : cached = false := by
      cases cached
      · rfl
      · exact absurd (Or.inl rfl) hcl
    have hc2 : connectOk = false := by
      cases connectOk
      · rfl
      · exact absurd (Or.inr rfl) hcl
    subst hc1
    subst hc2
    rw [refresh_eq_noconn now apName swName snap blockedQ devices history]
    exact hbase

/-- Claim C1 counterexample: one completed cycle over a single
wired-connected device (one open wired row, consistent stored state) whose
snapshot entry is wireless on an AP — afterwards two rows for the device
have a null `disconnected_at`, violating the invariant the claim asserts
"regardless of the sequence of snapshots observed (including a change of
medium)". -/
theorem C1_counterexample :
    ((refresh_tracked_devices 60 (fun _ => "AP") (fun _ => "SW") true true
      (Snapshot.ok (fun m => if m == "aa:bb" then some (baseWirelessClient "ap1")
        else none))
      (fun _ => none)
      [{ (baseDevice 1 "aa:bb") with
         is_connected := true, is_wired := true,
         current_switch_mac := some "s1", current_switch_name := some "SW1",
         current_switch_port := some 3 }]
      [ConnectionHistory.mk 1 none none none ⟨5, some 0⟩ none none none true
        (some "s1") (some "SW1") (some 3)]).history.filter
      (isOpenFor 1)).length = 2 := by decide

/-- Witness for C1: a cycle over two consistent devices — one wireless
roaming to another AP, one absent from the snapshot — keeps at most one
open row for every device. -/
theorem C1_at_most_one_open_witness :
    ((∀ dv ∈ [{ (baseDevice 1 "aa:bb") with
          is_connected := true, current_ap_mac := some "a0",
          current_ap_name := some "AP0" }, baseDevice 2 "cc:dd"],
        Consistent dv [ConnectionHistory.mk 1 (some "a0") (some "AP0") none
          ⟨5, some 0⟩ none none none false none none none]) ∧
      ([{ (baseDevice 1 "aa:bb") with
          is_connected := true, current_ap_mac := some "a0",
          current_ap_name := some "AP0" },
        baseDevice 2 "cc:dd"].Pairwise (fun x y => x.id ≠ y.id))) ∧
    (∀ dv ∈ (refresh_tracked_devices 60 (fun _ => "AP") (fun _ => "SW") true true
        (Snapshot.ok (fun m => if m == "aa:bb" then
          some (baseWirelessClient "a1") else none))
        (fun _ => none)
        [{ (baseDevice 1 "aa:bb") with
           is_connected := true, current_ap_mac := some "a0",
           current_ap_name := some "AP0" }, baseDevice 2 "cc:dd"]
        [ConnectionHistory.mk 1 (some "a0") (some "AP0") none ⟨5, some 0⟩ none
          none none false none none none]).devices,
      ((refresh_tracked_devices 60 (fun _ => "AP") (fun _ => "SW") true true
        (Snapshot.ok (fun m => if m == "aa:bb" then
          some (baseWirelessClient "a1") else none))
        (fun _ => none)
        [{ (baseDevice 1 "aa:bb") with
           is_connected := true, current_ap_mac := some "a0",
           current_ap_name := some "AP0" }, baseDevice 2 "cc:dd"]
        [ConnectionHistory.mk 1 (some "a0") (some "AP0") none ⟨5, some 0⟩ none
          none none false none none none]).history.filter
        (isOpenFor dv.id)).length ≤ 1) :=
  ⟨⟨by decide, by decide⟩,
    C1_at_most_one_open 60 (fun _ => "AP") (fun _ => "SW") true true
      (Snapshot.ok (fun m => if m == "aa:bb" then
        some (baseWirelessClient "a1") else none))
      (fun _ => none)
      [{ (baseDevice 1 "aa:bb") with
         is_connected := true, current_ap_mac := some "a0",
         current_ap_name := some "AP0" }, baseDevice 2 "cc:dd"]
      [ConnectionHistory.mk 1 (some "a0") (some "AP0") none ⟨5, some 0⟩ none
        none none false none none none]
      (by decide) (by decide)
      (fun cl hcl => by
        cases hcl
        decide)⟩

/-- Claim C7: when the snapshot cannot be obtained — no provider client is
available, or the client-list fetch raises (with at least one tracked
device, since an empty table returns before the fetch) — the cycle commits
no device-state or interval mutation at all, emits no notification, leaves
no cached provider connection behind (so the next scheduled cycle
reconnects fresh), and makes at most one snapshot-fetch attempt — no
in-cycle retry. -/
theorem C7_provider_failure (now : Int) (apName swName : String → String)
    (cached connectOk : Bool) (snap : Snapshot) (blockedQ : String → Option Bool)
    (devices : List TrackedDevice) (history : List ConnectionHistory)
    (hfail : (get_shared_client cached connectOk).1 = none ∨
      (devices ≠ [] ∧ snap = Snapshot.fetchFailure)) :
    (refresh_tracked_devices now apName swName cached connectOk snap blockedQ
      devices history).devices = devices ∧
    (refresh_tracked_devices now apName swName cached connectOk snap blockedQ
      devices history).history = history ∧
    (refresh_tracked_devices now apName swName cached connectOk snap blockedQ
      devices history).events = [] ∧
    (refresh_tracked_devices now apName swName cached connectOk snap blockedQ
      devices history).cachedConn = false ∧
    (refresh_tracked_devices now apName swName cached connectOk snap blockedQ
      devices history).fetchAttempts ≤ 1 := by
  rcases hfail with hnone | ⟨hne, hsnap⟩
  · have hc : cached = false ∧ connectOk = false := by
      cases cached with
      | false =>
        cases connectOk with
        | false => exact ⟨rfl, rfl⟩
        | true => simp [get_shared_client] at hnone
      | true => simp [get_shared_client] at hnone
    obtain ⟨hc1, hc2⟩ := hc
    subst hc1
    subst hc2
    rw [refresh_eq_noconn now apName swName snap blockedQ devices history]
    exact ⟨rfl, rfl, rfl, rfl, Nat.zero_le 1⟩
  · subst hsnap
    cases devices with
    | nil => exact absurd rfl hne
    | cons d ds =>
      by_cases hcl : cached = true ∨ connectOk = true
      · rw [refresh_eq_fetchfail now apName swName cached connectOk blockedQ
          d ds history hcl]
        exact ⟨rfl, rfl, rfl, rfl, Nat.le_refl 1⟩
      · have hc1 : cached = false := by
          cases cached
          · rfl
          · exact absurd (Or.inl rfl) hcl
        have hc2 : connectOk = false := by
          cases connectOk
          · rfl
          · exact absurd (Or.inr rfl) hcl
        subst hc1
        subst hc2
        rw [refresh_eq_noconn now apName swName Snapshot.fetchFailure blockedQ
          (d :: ds) history]
        exact ⟨rfl, rfl, rfl, rfl, Nat.zero_le 1⟩

/-- Witness for C7: a cycle with a cached connection whose client-list fetch
raises commits nothing, invalidates the cached connection, and attempts the
fetch once. -/
theorem C7_provider_failure_witness :
    ((get_shared_client true true).1 = none ∨
      (([baseDevice 1 "aa:bb"] : List TrackedDevice) ≠ [] ∧
        (Snapshot.fetchFailure : Snapshot) = Snapshot.fetchFailure)) ∧
    ((refresh_tracked_devices 10 (fun _ => "AP") (fun _ => "SW") true true
      Snapshot.fetchFailure (fun _ => none) [baseDevice 1 "aa:bb"] []).devices
        = [baseDevice 1 "aa:bb"] ∧
    (refresh_tracked_devices 10 (fun _ => "AP") (fun _ => "SW") true true
      Snapshot.fetchFailure (fun _ => none) [baseDevice 1 "aa:bb"] []).history
        = [] ∧
    (refresh_tracked_devices 10 (fun _ => "AP") (fun _ => "SW") true true
      Snapshot.fetchFailure (fun _ => none) [baseDevice 1 "aa:bb"] []).events
        = [] ∧
    (refresh_tracked_devices 10 (fun _ => "AP") (fun _ => "SW") true true
      Snapshot.fetchFailure (fun _ => none) [baseDevice 1 "aa:bb"] []).cachedConn
        = false ∧
    (refresh_tracked_devices 10 (fun _ => "AP") (fun _ => "SW") true true
      Snapshot.fetchFailure (fun _ => none) [baseDevice 1 "aa:bb"] []).fetchAttempts
        ≤ 1) :=
  ⟨Or.inr ⟨by decide, rfl⟩,
    C7_provider_failure 10 (fun _ => "AP") (fun _ => "SW") true true
      Snapshot.fetchFailure (fun _ => none) [baseDevice 1 "aa:bb"] []
      (Or.inr ⟨by decide, rfl⟩)⟩

theorem find?_append_of_none (p : α → Bool) (l₁ l₂ : List α)
    (h : l₁.find? p = none) : (l₁ ++ l₂).find? p = l₂.find? p := by
  induction l₁ with
  | nil => rfl
  | cons x xs ih =>
    cases hx : p x with
    | true =>
      rw [List.find?_cons_of_pos _ hx] at h
      cases h
    | false =>
      rw [List.find?_cons_of_neg _ (by simp [hx])] at h
      rw [List.cons_append, List.find?_cons_of_neg _ (by simp [hx])]
      exact ih h

theorem find?_append_single_neg (q : α → Bool) (l : List α) (e : α)
    (he : q e = false) : (l ++ [e]).find? q = l.find? q := by
  induction l with
  | nil => simp [List.find?, he]
  | cons x xs ih =>
    cases hx : q x with
    | true =>
      rw [List.cons_append, List.find?_cons_of_pos _ hx,
        List.find?_cons_of_pos _ hx]
    | false =>
      rw [List.cons_append, List.find?_cons_of_neg _ (by simp [hx]),
        List.find?_cons_of_neg _ (by simp [hx])]
      exact ih

theorem find?_replaceFirst_self (p : α → Bool) (f : α → α) (l : List α)
    (hf : ∀ e, p e = true → p (f e) = true) :
    (replaceFirst p f l).find? p = (l.find? p).map f := by
  induction l with
  | nil => rfl
  | cons x xs ih =>
    cases hx : p x with
    | true =>
      simp only [replaceFirst, hx, if_true]
      rw [List.find?_cons_of_pos _ (hf x hx), List.find?_cons_of_pos _ hx]
      rfl
    | false =>
      simp only [replaceFirst, hx, Bool.false_eq_true, if_false]
      rw [List.find?_cons_of_neg _ (by simp [hx]),
        List.find?_cons_of_neg _ (by simp [hx])]
      exact ih

theorem find?_replaceFirst_other (p q : α → Bool) (f : α → α) (l : List α)
    (hq : ∀ e, p e = true → q e = false)
    (hqf : ∀ e, p e = true → q (f e) = false) :
    (replaceFirst p f l).find? q = l.find? q := by
  induction l with
  | nil => rfl
  | cons x xs ih =>
    cases hx : p x with
    | true =>
      simp only [replaceFirst, hx, if_true]
      rw [List.find?_cons_of_neg _ (by simp [hqf x hx]),
        List.find?_cons_of_neg _ (by simp [hq x hx])]
    | false =>
      simp only [replaceFirst, hx, Bool.false_eq_true, if_false]
      cases hqx : q x with
      | true =>
        rw [List.find?_cons_of_pos _ hqx, List.find?_cons_of_pos _ hqx]
      | false =>
        rw [List.find?_cons_of_neg _ (by simp [hqx]),
          List.find?_cons_of_neg _ (by simp [hqx])]
        exact ih

theorem bucketKey_incr (now : PyDateTime) (did dow hour : Nat) (e : HourlyPresence) :
    bucketKey did dow hour
      { e with total_minutes_connected := e.total_minutes_connected + 60,
               sample_count := e.sample_count + 1, last_updated := now }
      = bucketKey did dow hour e := rfl

theorem bucketKey_of_ne (did did' dow dow' hour hour' : Nat)
    (e : HourlyPresence) (hkey : bucketKey did dow hour e = true)
    (hne : did' ≠ did) : bucketKey did' dow' hour' e = false := by
  have hid : e.device_id = did := by
    have := (and_eq_true_split (and_eq_true_split hkey).1).1
    simpa using this
  unfold bucketKey
  rw [hid]
  simp [Ne.symm hne]

theorem getBucket_update_self (now : PyDateTime) (dow hour did : Nat)
    (bs : List HourlyPresence) :
    getBucket did dow hour (updateBucket now dow hour did bs)
      = some (match getBucket did dow hour bs with
          | some b => { b with
              total_minutes_connected := b.total_minutes_connected + 60,
              sample_count := b.sample_count + 1, last_updated := now }
          | none => ⟨did, dow, hour, 60, 1, now⟩) := by
  unfold updateBucket getBucket
  cases hf : bs.find? (bucketKey did dow hour) with
  | none =>
    rw [find?_append_of_none _ bs _ hf]
    rw [List.find?_cons_of_pos _ (by simp [bucketKey])]
  | some b =>
    rw [find?_replaceFirst_self (bucketKey did dow hour) _ bs
      (fun e he => by rw [bucketKey_incr]; exact he), hf]
    rfl

theorem getBucket_update_other (now : PyDateTime) (dow hour did : Nat)
    (bs : List HourlyPresence) (did' dow' hour' : Nat) (hne : did' ≠ did) :
    getBucket did' dow' hour' (updateBucket now dow hour did bs)
      = getBucket did' dow' hour' bs := by
  unfold updateBucket getBucket
  cases hf : bs.find? (bucketKey did dow hour) with
  | none =>
    rw [find?_append_single_neg _ bs _ (by
      unfold bucketKey
      simp [Ne.symm hne])]
  | some b =>
    rw [find?_replaceFirst_other (bucketKey did dow hour)
      (bucketKey did' dow' hour') _ bs
      (fun e he => bucketKey_of_ne did did' dow dow' hour hour' e he hne)
      (fun e he => by
        rw [bucketKey_incr]
        exact bucketKey_of_ne did did' dow dow' hour hour' e he hne)]

theorem aggregate_fold_other (now : PyDateTime) (dow hour : Nat)
    (qs : List TrackedDevice) (buckets : List HourlyPresence)
    (did dow' hour' : Nat) (hne : ∀ x ∈ qs, x.id ≠ did) :
    getBucket did dow' hour'
      (qs.foldl (fun bs x => updateBucket now dow hour x.id bs) buckets)
      = getBucket did dow' hour' buckets := by
  induction qs generalizing buckets with
  | nil => rfl
  | cons x xs ih =>
    rw [List.foldl_cons]
    rw [ih _ (fun y hy => hne y (List.mem_cons_of_mem x hy))]
    exact getBucket_update_other now dow hour x.id buckets did dow' hour'
      (Ne.symm (hne x (List.mem_cons_self x xs)))

theorem aggregate_fold_mem (now : PyDateTime) (dow hour : Nat)
    (qs : List TrackedDevice) (buckets : List HourlyPresence)
    (d : TrackedDevice) (hd : d ∈ qs)
    (hids : qs.Pairwise (fun x y => x.id ≠ y.id)) :
    getBucket d.id dow hour
      (qs.foldl (fun bs x => updateBucket now dow hour x.id bs) buckets)
      = some (match getBucket d.id dow hour buckets with
          | some b => { b with
              total_minutes_connected := b.total_minutes_connected + 60,
              sample_count := b.sample_count + 1, last_updated := now }
          | none => ⟨d.id, dow, hour, 60, 1, now⟩) := by
  induction qs generalizing buckets with
  | nil => cases hd
  | cons x xs ih =>
    rw [List.foldl_cons]
    rcases List.mem_cons.1 hd with heq | hmem
    · subst heq
      rw [aggregate_fold_other now dow hour xs _ d.id dow hour
        (fun y hy => Ne.symm ((List.pairwise_cons.1 hids).1 y hy))]
      exact getBucket_update_self now dow hour d.id buckets
    · rw [ih _ hmem (List.pairwise_cons.1 hids).2,
        getBucket_update_other now dow hour x.id buckets d.id dow hour
          ((List.pairwise_cons.1 hids).1 d hmem).symm]

/-- Claim C8: at an hourly aggregation tick, every tracked device with
`is_connected = true` and `is_wired = false` has the PresenceBucket keyed by
(device, current day-of-week, current hour) credited with exactly 60
minutes and one sample, the bucket being created with values 60 and 1 when
absent; buckets of devices that are wired or not connected are unchanged. -/
theorem C8_hourly_aggregation (now : PyDateTime) (dow hour : Nat)
    (devices : List TrackedDevice) (buckets : List HourlyPresence)
    (hids : (devices.filter (fun d => d.is_connected && !d.is_wired)).Pairwise
      (fun x y => x.id ≠ y.id)) :
    (∀ d ∈ devices, d.is_connected = true → d.is_wired = false →
      getBucket d.id dow hour
          (aggregate_hourly_presence now dow hour devices buckets)
        = some (match getBucket d.id dow hour buckets with
            | some b => { b with
                total_minutes_connected := b.total_minutes_connected + 60,
                sample_count := b.sample_count + 1, last_updated := now }
            | none => ⟨d.id, dow, hour, 60, 1, now⟩)) ∧
    (∀ did dow' hour',
      (∀ d ∈ devices, d.is_connected = true → d.is_wired = false → d.id ≠ did) →
      getBucket did dow' hour'
          (aggregate_hourly_presence now dow hour devices buckets)
        = getBucket did dow' hour' buckets) := by
  constructor
  · intro d hd hconn hwired
    unfold aggregate_hourly_presence
    exact aggregate_fold_mem now dow hour _ buckets d
      (List.mem_filter.2 ⟨hd, by simp [hconn, hwired]⟩) hids
  · intro did dow' hour' hne
    unfold aggregate_hourly_presence
    refine aggregate_fold_other now dow hour _ buckets did dow' hour' ?_
    intro x hx
    obtain ⟨hxd, hxf⟩ := List.mem_filter.1 hx
    obtain ⟨hxc, hxw⟩ := and_eq_true_split hxf
    exact hne x hxd hxc (by simpa using hxw)

/-- Witness for C8: a Monday 14:00 tick over one connected wireless device
with an existing (day 0, hour 14) bucket and one connected wireless device
without a bucket: the first bucket is credited 120→180 minutes, 2→3
samples, and a fresh 60/1 bucket is created for the second device. -/
theorem C8_hourly_aggregation_witness :
    (([{ (baseDevice 1 "aa:bb") with is_connected := true },
       { (baseDevice 2 "cc:dd") with is_connected := true }].filter
        (fun d => d.is_connected && !d.is_wired)).Pairwise
      (fun x y => x.id ≠ y.id)) ∧
    getBucket ({ (baseDevice 1 "aa:bb") with
        is_connected := true } : TrackedDevice).id 0 14
      (aggregate_hourly_presence ⟨3600, some 0⟩ 0 14
        [{ (baseDevice 1 "aa:bb") with is_connected := true },
         { (baseDevice 2 "cc:dd") with is_connected := true }]
        [HourlyPresence.mk 1 0 14 120 2 ⟨0, some 0⟩])
      = some (HourlyPresence.mk 1 0 14 180 3 ⟨3600, some 0⟩) ∧
    getBucket ({ (baseDevice 2 "cc:dd") with
        is_connected := true } : TrackedDevice).id 0 14
      (aggregate_hourly_presence ⟨3600, some 0⟩ 0 14
        [{ (baseDevice 1 "aa:bb") with is_connected := true },
         { (baseDevice 2 "cc:dd") with is_connected := true }]
        [HourlyPresence.mk 1 0 14 120 2 ⟨0, some 0⟩])
      = some (HourlyPresence.mk 2 0 14 60 1 ⟨3600, some 0⟩) := by
  have happ := C8_hourly_aggregation ⟨3600, some 0⟩ 0 14
    [{ (baseDevice 1 "aa:bb") with is_connected := true },
     { (baseDevice 2 "cc:dd") with is_connected := true }]
    [HourlyPresence.mk 1 0 14 120 2 ⟨0, some 0⟩]
    (by decide)
  refine ⟨by decide, ?_, ?_⟩
  · exact (happ.1 { (baseDevice 1 "aa:bb") with is_connected := true }
      (by decide) (by decide) (by decide)).trans (by decide)
  · exact (happ.1 { (baseDevice 2 "cc:dd") with is_connected := true }
      (by decide) (by decide) (by decide)).trans (by decide)

theorem find_by_id_of_get (ds : List TrackedDevice) (i : Nat) (dv : TrackedDevice)
    (hids : ds.Pairwise (fun x y => x.id ≠ y.id)) (hget : ds.get? i = some dv) :
    ds.find? (fun d => d.id == dv.id) = some dv := by
  induction ds generalizing i with
  | nil => cases hget
  | cons x xs ih =>
    cases i with
    | zero =>
      have hx : x = dv := Option.some.inj hget
      subst hx
      rw [List.find?_cons_of_pos _ (by simp)]
    | succ i =>
      have hmem : dv ∈ xs := List.get?_mem hget
      have hne : x.id ≠ dv.id := (List.pairwise_cons.1 hids).1 dv hmem
      rw [List.find?_cons_of_neg _ (by simp [hne])]
      exact ih i (List.pairwise_cons.1 hids).2 hget

theorem runCycle_event_tags (now : Int) (apName swName : String → String)
    (clients : String → Option Client) (blockedQ : String → Option Bool)
    (ds : List TrackedDevice) (h : List ConnectionHistory) :
    ∀ p ∈ (runCycle now apName swName clients blockedQ ds h).events,
      ∃ d ∈ ds, p.1 = d.id := by
  induction ds generalizing h with
  | nil => intro p hp; cases hp
  | cons d ds ih =>
    rw [runCycle_cons]
    intro p hp
    rcases List.mem_append.1 hp with hl | hr
    · obtain ⟨e, -, heq⟩ := List.mem_map.1 hl
      exact ⟨d, List.mem_cons_self d ds, by rw [← heq]⟩
    · obtain ⟨d', hd', htag⟩ := ih _ p hr
      exact ⟨d', List.mem_cons_of_mem d hd', htag⟩

theorem filter_tag_self (k : Nat) (ev : List Event) :
    (ev.map (fun e => (k, e))).filter (fun p => p.1 == k)
      = ev.map (fun e => (k, e)) := by
  rw [List.filter_eq_self]
  intro p hp
  obtain ⟨e, -, heq⟩ := List.mem_map.1 hp
  rw [← heq]
  simp

theorem filter_tag_other (k k' : Nat) (ev : List Event) (hne : k ≠ k') :
    (ev.map (fun e => (k, e))).filter (fun p => p.1 == k') = [] := by
  rw [List.filter_eq_nil_iff]
  intro p hp
  obtain ⟨e, -, heq⟩ := List.mem_map.1 hp
  rw [← heq]
  simp [hne]

theorem runCycle_single_agree (now : Int) (apName swName : String → String)
    (clients : String → Option Client) (blockedQ : String → Option Bool)
    (ds : List TrackedDevice) (h : List ConnectionHistory) (i : Nat)
    (dv : TrackedDevice)
    (hids : ds.Pairwise (fun x y => x.id ≠ y.id))
    (hget : ds.get? i = some dv) :
    ((runCycle now apName swName clients blockedQ ds h).devices.get? i
      = some (process_device now apName swName dv
          (clients (lowerStr dv.mac_address)) h
          (blockedQ (lowerStr dv.mac_address))).device) ∧
    ownRows dv.id (runCycle now apName swName clients blockedQ ds h).history
      = ownRows dv.id (process_device now apName swName dv
          (clients (lowerStr dv.mac_address)) h
          (blockedQ (lowerStr dv.mac_address))).history ∧
    (runCycle now apName swName clients blockedQ ds h).events.filter
        (fun p => p.1 == dv.id)
      = (process_device now apName swName dv (clients (lowerStr dv.mac_address))
          h (blockedQ (lowerStr dv.mac_address))).events.map
          (fun e => (dv.id, e)) := by
  induction ds generalizing h i with
  | nil => cases hget
  | cons d ds ih =>
    rw [runCycle_cons]
    cases i with
    | zero =>
      have hx : d = dv := Option.some.inj hget
      subst hx
      have hne : ∀ y ∈ ds, y.id ≠ d.id :=
        fun y hy => Ne.symm ((List.pairwise_cons.1 hids).1 y hy)
      refine ⟨rfl, ?_, ?_⟩
      · exact runCycle_frame now apName swName clients blockedQ ds _ d.id hne
      · rw [List.filter_append, filter_tag_self]
        rw [List.filter_eq_nil_iff.2 (fun p hp => by
          obtain ⟨d', hd', htag⟩ := runCycle_event_tags now apName swName clients
            blockedQ ds _ p hp
          simp [htag, hne d' hd'])]
        simp
    | succ i =>
      have hmem : dv ∈ ds := List.get?_mem hget
      have hne : dv.id ≠ d.id := Ne.symm ((List.pairwise_cons.1 hids).1 dv hmem)
      have hfr := process_frame now apName swName d
        (clients (lowerStr d.mac_address)) h (blockedQ (lowerStr d.mac_address))
        dv.id hne
      obtain ⟨hcd, hce, hch⟩ := process_congr now apName swName dv
        (clients (lowerStr dv.mac_address))
        (process_device now apName swName d (clients (lowerStr d.mac_address)) h
          (blockedQ (lowerStr d.mac_address))).history h
        (blockedQ (lowerStr dv.mac_address)) hfr
      obtain ⟨ihd, ihh, ihe⟩ := ih _ i (List.pairwise_cons.1 hids).2 hget
      refine ⟨?_, ?_, ?_⟩
      · show (runCycle now apName swName clients blockedQ ds _).devices.get? i = _
        rw [ihd, hcd]
      · rw [ihh, hch]
      · rw [List.filter_append, filter_tag_other d.id dv.id _ (Ne.symm hne),
          List.nil_append, ihe, hce]

/-- Claim C9: refreshing a single tracked device against a snapshot produces
exactly the device row, the interval rows of that device, and the
notifications for that device that a full reconciliation cycle over the
same snapshot produces, provided device ids are unique (they are a primary
key). -/
theorem C9_single_refresh_equiv (now : Int) (apName swName : String → String)
    (clients : String → Option Client) (blockedQ : String → Option Bool)
    (devices : List TrackedDevice) (history : List ConnectionHistory)
    (i : Nat) (dv : TrackedDevice)
    (hids : devices.Pairwise (fun x y => x.id ≠ y.id))
    (hget : devices.get? i = some dv) :
    ∃ d' h' ev,
      refresh_single_device now apName swName clients blockedQ dv.id devices
        history = some (d', h', ev) ∧
      (runCycle now apName swName clients blockedQ devices history).devices.get? i
        = some d' ∧
      ownRows dv.id
        (runCycle now apName swName clients blockedQ devices history).history
        = ownRows dv.id h' ∧
      (runCycle now apName swName clients blockedQ devices history).events.filter
        (fun p => p.1 == dv.id) = ev := by
  have hfind : devices.find? (fun d => d.id == dv.id) = some dv :=
    find_by_id_of_get devices i dv hids hget
  obtain ⟨hdev, hhist, hev⟩ := runCycle_single_agree now apName swName clients
    blockedQ devices history i dv hids hget
  refine ⟨(process_device now apName swName dv
      (clients (lowerStr dv.mac_address)) history
      (blockedQ (lowerStr dv.mac_address))).device,
    (process_device now apName swName dv (clients (lowerStr dv.mac_address))
      history (blockedQ (lowerStr dv.mac_address))).history,
    (process_device now apName swName dv (clients (lowerStr dv.mac_address))
      history (blockedQ (lowerStr dv.mac_address))).events.map
      (fun e => (dv.id, e)),
    ?_, hdev, hhist, hev⟩
  unfold refresh_single_device
  rw [hfind]

/-- Witness for C9: a two-device table where the second device appears on an
AP; the single-device refresh of that device matches the full cycle. -/
theorem C9_single_refresh_equiv_witness :
    (([baseDevice 1 "aa:bb", baseDevice 2 "cc:dd"].Pairwise
        (fun x y => x.id ≠ y.id)) ∧
      [baseDevice 1 "aa:bb", baseDevice 2 "cc:dd"].get? 1
        = some (baseDevice 2 "cc:dd")) ∧
    (∃ d' h' ev,
      refresh_single_device 70 (fun _ => "AP") (fun _ => "SW")
        (fun m => if m == "cc:dd" then some (baseWirelessClient "apX") else none)
        (fun _ => none) (baseDevice 2 "cc:dd").id
        [baseDevice 1 "aa:bb", baseDevice 2 "cc:dd"] [] = some (d', h', ev) ∧
      (runCycle 70 (fun _ => "AP") (fun _ => "SW")
        (fun m => if m == "cc:dd" then some (baseWirelessClient "apX") else none)
        (fun _ => none)
        [baseDevice 1 "aa:bb", baseDevice 2 "cc:dd"] []).devices.get? 1
        = some d' ∧
      ownRows (baseDevice 2 "cc:dd").id
        (runCycle 70 (fun _ => "AP") (fun _ => "SW")
          (fun m => if m == "cc:dd" then some (baseWirelessClient "apX") else none)
          (fun _ => none)
          [baseDevice 1 "aa:bb", baseDevice 2 "cc:dd"] []).history
        = ownRows (baseDevice 2 "cc:dd").id h' ∧
      (runCycle 70 (fun _ => "AP") (fun _ => "SW")
        (fun m => if m == "cc:dd" then some (baseWirelessClient "apX") else none)
        (fun _ => none)
        [baseDevice 1 "aa:bb", baseDevice 2 "cc:dd"] []).events.filter
        (fun p => p.1 == (baseDevice 2 "cc:dd").id) = ev) :=
  ⟨⟨by decide, rfl⟩,
    C9_single_refresh_equiv 70 (fun _ => "AP") (fun _ => "SW")
      (fun m => if m == "cc:dd" then some (baseWirelessClient "apX") else none)
      (fun _ => none)
      [baseDevice 1 "aa:bb", baseDevice 2 "cc:dd"] [] 1 (baseDevice 2 "cc:dd")
      (by decide) rfl⟩
